import Mathlib

/-!
Verification of the fastSDK client runtime against its specification.

The Python sources are shallowly embedded: every definition below mirrors one
function or class of the repository (the file and symbol are named in each doc
comment).  Python `dict`s become association lists, JSON values become the
`Json` inductive, Python exceptions become `Except PyErr`, and external
collaborators (the HTTP stack, the `media_toolkit` library, `json.loads`) are
passed in as explicit function parameters.
-/

/-- Python/JSON values as produced by `response.json()` and consumed throughout
the request/response layer.  `null` doubles as Python `None` (in CPython the
JSON `null` is literally `None`).  Numbers are modelled as rationals, which is
exact for every numeral appearing in the sources. -/
inductive Json where
  | null : Json
  | bool : Bool → Json
  | num : Rat → Json
  | str : String → Json
  | arr : List Json → Json
  | obj : List (String × Json) → Json
deriving Repr

/-- Python truthiness of a JSON value (`if not x`). -/
def Json.truthy : Json → Bool
  | .null => false
  | .bool b => b
  | .num q => q ≠ 0
  | .str s => s ≠ ""
  | .arr l => ¬ l.isEmpty
  | .obj l => ¬ l.isEmpty

/-- `x is None` for an embedded Python value. -/
def Json.isNull : Json → Bool
  | .null => true
  | _ => false

/-- `isinstance(x, dict)`. -/
def Json.isDict : Json → Bool
  | .obj _ => true
  | _ => false

/-- `isinstance(x, list)`. -/
def Json.isList : Json → Bool
  | .arr _ => true
  | _ => false

/-- `isinstance(x, str)`. -/
def Json.isStr : Json → Bool
  | .str _ => true
  | _ => false

/-- Association-list lookup, the core of Python `dict` access.  Python dicts
keep one entry per key; the parsers below only build such lists. -/
def alistGet (l : List (String × Json)) (k : String) : Option Json :=
  match l.find? (fun p => p.1 == k) with
  | some p => some p.2
  | none => none

/-- `d.get(k)` on a dict: absent keys give `None` (our `Json.null`). -/
def Json.get (d : Json) (k : String) : Json :=
  match d with
  | .obj l => (alistGet l k).getD Json.null
  | _ => Json.null

/-- `d.get(k, default)` on a dict. -/
def Json.getD (d : Json) (k : String) (default : Json) : Json :=
  match d with
  | .obj l => (alistGet l k).getD default
  | _ => default

/-- `k in d` for a dict. -/
def Json.hasKey (d : Json) (k : String) : Bool :=
  match d with
  | .obj l => (alistGet l k).isSome
  | _ => false

/-- Substring search helper for `pyIn`. -/
def charsInfixOf (needle : List Char) : List Char → Bool
  | [] => needle.isEmpty
  | c :: rest => needle.isPrefixOf (c :: rest) || charsInfixOf needle rest

/-- Python `needle in haystack` on strings (substring containment). -/
def pyIn (needle haystack : String) : Bool :=
  charsInfixOf needle.data haystack.data

/-- Python exceptions that the embedded code can raise. -/
inductive PyErr where
  | valueError (msg : String)
  | keyError (k : String)
  | attributeError
  | typeError
  | validationError
  | recursionError
deriving Repr, DecidableEq

/-- Decidable equality for `Except` results (absent from the library). -/
instance {e a : Type} [DecidableEq e] [DecidableEq a] : DecidableEq (Except e a) :=
  fun x y =>
    match x, y with
    | .ok u, .ok v =>
        if h : u = v then .isTrue (by rw [h]) else .isFalse (by simp [h])
    | .error u, .error v =>
        if h : u = v then .isTrue (by rw [h]) else .isFalse (by simp [h])
    | .ok _, .error _ => .isFalse (by simp)
    | .error _, .ok _ => .isFalse (by simp)

/-- `APIJobStatus`, the unified status enum
(src/fastsdk/service_interaction/response/api_job_status.py). -/
inductive APIJobStatus where
  | QUEUED | PROCESSING | FINISHED | FAILED | TIMEOUT | CANCELLED | UNKNOWN
deriving Repr, DecidableEq, Inhabited

/-! ## Polling stage (`ApiJobManager._poll_status`) -/

/-- What one poll tick observes, in the order the source inspects it
(src/fastsdk/service_interaction/api_job_manager.py:197-256): the
`api_client.poll_status` call raised, or `check_response_status` reported an
HTTP error, or the parsed payload was not a job response, or a job response
with the given unified status came back. -/
inductive PollEvent where
  | transientError
  | httpStatusError
  | nonJobResponse
  | statusIs (s : APIJobStatus)
deriving Repr, DecidableEq

/-- Result of one tick of `_poll_status`: an exception terminated the job, or
the final response was returned, or `PollAgain` was signalled (carrying the
job's `number_of_polling_errors` task data). -/
inductive PollStepResult where
  | raised
  | finished
  | pollAgain (taskData : Option Nat)
deriving Repr, DecidableEq

/-- One tick of `ApiJobManager._poll_status`
(src/fastsdk/service_interaction/api_job_manager.py:197-256).  `taskData` is
the job's `number_of_polling_errors` entry (`none` when never set). -/
def pollStep (taskData : Option Nat) : PollEvent → PollStepResult
  | .transientError =>
      -- `n_polling_errors = 0; if job.has_task_data(...): n_polling_errors = ...`
      let n := taskData.getD 0
      if n > 3 then .raised    -- `if n_polling_errors > 3: raise e`
      else .pollAgain (some (n + 1))  -- `set_task_data(...)` then `PollAgain`
  | .httpStatusError => .raised    -- `raise ValueError(f"Job status polling failed: ...")`
  | .nonJobResponse => .raised     -- `raise ValueError(f"Expected job response but got ...")`
  | .statusIs s =>
      if s = .FINISHED then .finished
      else if s = .FAILED ∨ s = .CANCELLED then .raised
      else .pollAgain taskData      -- progress is forwarded; the counter is untouched

/-- Outcome of running the polling loop over a finite trace of tick events. -/
inductive PollRunResult where
  | raised
  | finished
  | stillPolling (taskData : Option Nat)
deriving Repr, DecidableEq

/-- The polling loop: `_poll_status` is re-invoked by the task runtime as long
as it returns `PollAgain`.  The trace lists what each successive tick observes. -/
def runPoll (taskData : Option Nat) : List PollEvent → PollRunResult
  | [] => .stillPolling taskData
  | e :: rest =>
      match pollStep taskData e with
      | .raised => .raised
      | .finished => .finished
      | .pollAgain td => runPoll td rest

/-! ## File handler (`FileHandler._handle_file_upload`) -/

/-- Abstracted `FastCloud` uploader capability handed to a `FileHandler`
(the `fastCloud` library is external).  `isUploadAPI` records the result of
the `isinstance(self.fast_cloud, BaseUploadAPI)` test. -/
structure FastCloud where
  isUploadAPI : Bool
deriving Repr, DecidableEq

/-- `FileHandler.__init__` configuration
(src/fastsdk/service_interaction/request/file_handler.py:10-19). -/
structure FileHandler where
  fast_cloud : Option FastCloud := none
  upload_to_cloud_threshold_mb : Option Rat := none
  max_upload_file_size_mb : Option Rat := none
deriving Repr, DecidableEq

/-- Abstracted `MediaDict` batch: the entry names and the total size reported
by `files.file_size('mb')` (the `media_toolkit` library is external). -/
structure MediaBatch where
  names : List String
  sizeMb : Rat
deriving Repr, DecidableEq

/-- The four possible non-error outcomes of `_handle_file_upload`: `None` for
an empty batch, the batch returned as-is (to be attached inline later),
or the batch handed to the cloud uploader (async or sync API). -/
inductive UploadOutcome where
  | noFiles
  | attachedAsIs
  | uploadedAsync
  | uploadedSync
deriving Repr, DecidableEq

/-- Python truthiness of an optional float (`None` and `0.0` are falsy). -/
def optRatTruthy : Option Rat → Bool
  | none => false
  | some q => q != 0

/-- `FileHandler._handle_file_upload`
(src/fastsdk/service_interaction/request/file_handler.py:30-61). -/
def FileHandler.handleFileUpload (fh : FileHandler) (files : MediaBatch) :
    Except PyErr UploadOutcome :=
  -- `if not files or len(files) == 0: return None`
  if files.names.isEmpty then .ok .noFiles
  -- `if self.max_upload_file_size_mb and total_size > self.max_upload_file_size_mb:`
  else if optRatTruthy fh.max_upload_file_size_mb &&
      decide (files.sizeMb > fh.max_upload_file_size_mb.getD 0) then
    .error (.valueError "File size exceeds limit")
  -- `if not self.fast_cloud or not self.upload_to_cloud_threshold_mb
  --     or total_size < self.upload_to_cloud_threshold_mb: return files`
  else if fh.fast_cloud.isNone || !optRatTruthy fh.upload_to_cloud_threshold_mb ||
      decide (files.sizeMb < fh.upload_to_cloud_threshold_mb.getD 0) then
    .ok .attachedAsIs
  else
    match fh.fast_cloud with
    | some c => if c.isUploadAPI then .ok .uploadedAsync else .ok .uploadedSync
    | none => .ok .attachedAsIs  -- unreachable: `none` already took the skip branch

/-! ## Spec loader (`_load_from_url`) -/

/-- Result of one `client.get(path)` + `raise_for_status()` + `.json()` round
in the spec loader.  `httpErr` covers `httpx.HTTPError` and
`TimeoutException` (the exceptions the fallback loop catches), `badJson` a
`json.JSONDecodeError` from `response.json()` (caught nowhere in this
function). -/
inductive FetchResult where
  | ok (spec : Json)
  | httpErr
  | badJson
deriving Repr

/-- Errors `_load_from_url` can surface. -/
inductive SpecLoadError where
  | specNotFound (url : String)  -- the final `ValueError` of `_load_from_url`
  | httpError                    -- an uncaught `httpx.HTTPError`/`TimeoutException`
  | jsonError                    -- an uncaught `json.JSONDecodeError`
deriving Repr, DecidableEq

/-- The `possible_paths` list of `_load_from_url`
(src/fastsdk/service_management/parsers/spec_loader.py:47-53):
`base_url = url.rstrip('/')` followed by the four fixed fallback suffixes. -/
def fallbackPaths (url : String) : List String :=
  let baseUrl := url.dropRightWhile (· == '/')
  [baseUrl ++ "/openapi.json",
   baseUrl ++ "/api/openapi.json",
   baseUrl ++ "/docs/openapi.json",
   baseUrl ++ "/redoc/openapi.json"]

/-- The `for path in possible_paths` loop of `_load_from_url`: return the
first successful fetch, skip `HTTPError`/`Timeout`, let a JSON decode error
escape, and raise `ValueError` (spec not found) when the list is exhausted. -/
def tryFallbacks (fetch : String → FetchResult) (url : String) :
    List String → Except SpecLoadError Json
  | [] => .error (.specNotFound url)
  | p :: rest =>
      match fetch p with
      | .ok j => .ok j
      | .httpErr => tryFallbacks fetch url rest
      | .badJson => .error .jsonError

/-- `_load_from_url`
(src/fastsdk/service_management/parsers/spec_loader.py:43-70).  `fetch` is
the HTTP stack: what `client.get` + `raise_for_status` + `.json()` does at
each URL. -/
def loadFromUrl (fetch : String → FetchResult) (url : String) :
    Except SpecLoadError Json :=
  -- `if not url.endswith('openapi.json'):` probe the fallback paths
  if !url.endsWith "openapi.json" then
    tryFallbacks fetch url (fallbackPaths url)
  else
    -- direct URL to openapi.json; exceptions propagate uncaught here
    match fetch url with
    | .ok j => .ok j
    | .httpErr => .error .httpError
    | .badJson => .error .jsonError

/-! ## Request formatting (`APIClient.format_request_params`) -/

/-- The `type` attribute of an `EndpointParameter`
(src/fastsdk/service_management/service_definition.py:54): in practice a
single type string, a list of type strings, or `None`. -/
inductive ParamType where
  | pynone
  | one (s : String)
  | many (l : List String)
deriving Repr, DecidableEq

/-- `param.type if isinstance(param.type, list) else [param.type]` — the
normalization both `format_request_params` and `submit_job` perform. -/
def ParamType.asList : ParamType → List (Option String)
  | .pynone => [none]
  | .one s => [some s]
  | .many l => l.map some

/-- `any(t in ["file", "image", "video", "audio"] for t in ptype)`. -/
def hasMediaType (t : ParamType) : Bool :=
  t.asList.any fun o =>
    match o with
    | some s => ["file", "image", "video", "audio"].contains s
    | none => false

/-- `any(t in ["array"] for t in ptype)`. -/
def hasArrayType (t : ParamType) : Bool :=
  t.asList.any fun o =>
    match o with
    | some s => s == "array"
    | none => false

/-- `EndpointParameter`
(src/fastsdk/service_management/service_definition.py:52-59), restricted to
the fields the request layer reads.  `default` is `Json.null` for `None`. -/
structure EndpointParameter where
  name : String
  type : ParamType := .pynone
  required : Bool := false
  default : Json := Json.null
  location : String := "body"
deriving Repr

/-- `EndpointDefinition` (same file), restricted to the fields the request
layer and the orchestrator read. -/
structure EndpointDefinition where
  id : Option String := none
  path : String
  parameters : List EndpointParameter := []
deriving Repr

/-- Association-list update with Python `dict` semantics: an existing key is
overwritten in place, a new key is appended. -/
def alistUpd {α : Type} (l : List (String × α)) (k : String) (v : α) :
    List (String × α) :=
  match l with
  | [] => [(k, v)]
  | (k', v') :: rest => if k' = k then (k, v) :: rest else (k', v') :: alistUpd rest k v

/-- Association-list lookup (generic version of `alistGet`). -/
def alistLookup {α : Type} (l : List (String × α)) (k : String) : Option α :=
  match l.find? (fun p => p.1 == k) with
  | some p => some p.2
  | none => none

mutual

/-- Python `str(x)` of an embedded value (used for f-strings and query-string
rendering).  Container renderings follow Python's `repr` conventions. -/
def Json.pyStr : Json → String
  | .null => "None"
  | .bool true => "True"
  | .bool false => "False"
  | .num q => if q.den == 1 then toString q.num else toString q
  | .str s => s
  | .arr l => "[" ++ pyStrListElems l ++ "]"
  | .obj l => "\x7b" ++ pyStrObjElems l ++ "\x7d"
termination_by j => (sizeOf j, 0)
decreasing_by all_goals (simp_wf <;> omega)

/-- Python `repr(x)`: like `str` but strings are quoted. -/
def Json.pyRepr : Json → String
  | .str s => "'" ++ s ++ "'"
  | j => j.pyStr
termination_by j => (sizeOf j, 1)
decreasing_by all_goals (simp_wf; omega)

/-- Comma-joined reprs of list elements. -/
def pyStrListElems : List Json → String
  | [] => ""
  | [x] => x.pyRepr
  | x :: rest => x.pyRepr ++ ", " ++ pyStrListElems rest
termination_by l => (sizeOf l, 0)
decreasing_by all_goals (simp_wf; omega)

/-- Comma-joined `'key': repr` pairs of a dict. -/
def pyStrObjElems : List (String × Json) → String
  | [] => ""
  | [(k, v)] => "'" ++ k ++ "': " ++ v.pyRepr
  | (k, v) :: rest => "'" ++ k ++ "': " ++ v.pyRepr ++ ", " ++ pyStrObjElems rest
termination_by l => (sizeOf l, 0)
decreasing_by all_goals (simp_wf; omega)

end

/-- `RequestData`
(src/fastsdk/service_interaction/request/api_client.py:16-22). -/
structure RequestData where
  query_params : List (String × Json) := []
  body_params : List (String × Json) := []
  file_params : List (String × Json) := []
  headers : List (String × String) := []
  url : Option String := none
deriving Repr

/-- `APIClient._add_authorization_to_headers`
(src/fastsdk/service_interaction/request/api_client.py:51-65). -/
def addAuthorizationToHeaders (apiKey : Option String)
    (headers : List (String × String)) : List (String × String) :=
  match apiKey with
  | some k => if k ≠ "" then alistUpd headers "Authorization" ("Bearer " ++ k) else headers
  | none => headers

/-- `APIClient._build_request_url`
(src/fastsdk/service_interaction/request/api_client.py:67-86).
`serviceAddressUrl` is `self.service_def.service_address.url` (or `none` when
the service has no address). -/
def buildRequestUrl (serviceAddressUrl : Option String)
    (endpoint : EndpointDefinition) (queryParams : List (String × Json)) :
    Option String :=
  match serviceAddressUrl with
  | none => none
  | some base =>
      let baseUrl := base ++ "/" ++ endpoint.path.dropWhile (· == '/')
      if queryParams.isEmpty then some baseUrl
      else some (baseUrl ++ "?" ++
        String.intercalate "&" (queryParams.map fun p => p.1 ++ "=" ++ p.2.pyStr))

/-- The `for param in endpoint.parameters` loop of `format_request_params`
(src/fastsdk/service_interaction/request/api_client.py:103-126). -/
def formatParamsLoop (data : List (String × Json)) :
    List EndpointParameter → RequestData → Except PyErr RequestData
  | [], rq => .ok rq
  | param :: rest, rq =>
      -- `param_value = data.get(param.name, param.default)`
      let paramValue := (alistLookup data param.name).getD param.default
      -- `if param_value is None and param.required: raise ValueError(...)`
      if paramValue.isNull && param.required then
        .error (.valueError ("Required parameter '" ++ param.name ++ "' is missing"))
      else
        -- the `hasattr(param, "type") and param.type is not None` guard is
        -- equivalent to `asList`: a `None` type yields `[None]`, matching nothing
        let isFileParam := hasMediaType param.type
        let isArrayParam := hasArrayType param.type
        -- `or isinstance(param_value, MediaFile)`: `MediaFile` instances are
        -- external library objects, outside the embedded input value space
        let paramValue :=
          if isArrayParam && !paramValue.isList then Json.arr [paramValue] else paramValue
        let rq :=
          if isFileParam then
            { rq with file_params := alistUpd rq.file_params param.name paramValue }
          else rq
        let rq :=
          if param.location == "query" then
            { rq with query_params := alistUpd rq.query_params param.name paramValue }
          else if param.location == "body" then
            { rq with body_params := alistUpd rq.body_params param.name paramValue }
          else rq
        formatParamsLoop data rest rq

/-- `APIClient.format_request_params`
(src/fastsdk/service_interaction/request/api_client.py:88-130).  A `None`
`data` argument behaves exactly like `{}` (`if not data:`), so the input is
a single association list with `[]` for both. -/
def formatRequestParams (apiKey : Option String) (serviceAddressUrl : Option String)
    (endpoint : EndpointDefinition) (data : List (String × Json)) :
    Except PyErr RequestData :=
  if data.isEmpty then
    -- `if not data:` — early return without the required-parameter loop
    let rq : RequestData := {}
    let rq := { rq with headers := addAuthorizationToHeaders apiKey rq.headers }
    .ok { rq with url := buildRequestUrl serviceAddressUrl endpoint rq.query_params }
  else
    match formatParamsLoop data endpoint.parameters {} with
    | .error e => .error e
    | .ok rq =>
        let rq := { rq with url := buildRequestUrl serviceAddressUrl endpoint rq.query_params }
        .ok { rq with headers := addAuthorizationToHeaders apiKey rq.headers }

/-! ## Task plan (`ApiJobManager.submit_job`) -/

/-- The task-list construction of `ApiJobManager.submit_job`
(src/fastsdk/service_interaction/api_job_manager.py:295-319).  `fh` is the
file handler registered for the service (absent when none was added),
`specification` the service definition's `specification` literal. -/
def taskPlan (params : List EndpointParameter) (fh : Option FileHandler)
    (specification : String) : List String :=
  let taskList := ["Preparing"]
  -- `for param in endpoint_def.parameters: ... append("Load files"); break`
  let taskList := taskList ++ (if params.any (fun p => hasMediaType p.type) then ["Load files"] else [])
  -- `if fh is not None and hasattr(fh, "fast_cloud") and fh.fast_cloud is not None`
  let taskList := taskList ++
    (if (match fh with | some f => f.fast_cloud.isSome | none => false) then ["Uploading files"] else [])
  let taskList := taskList ++ ["Sending request"]
  -- `if service_def.specification in ["fasttaskapi", "socaity", "runpod", "replicate"]`
  let taskList := taskList ++
    (if specification ∈ ["fasttaskapi", "socaity", "runpod", "replicate"] then ["Polling"] else [])
  taskList ++ ["Processing result"]

/-! ## Address resolver (`service_adress_parser.py`) -/

/-- The tagged service-address variants
(src/fastsdk/service_management/service_definition.py:33-48).  `runpod.pod_id`
is a plain `str` there (pydantic rejects `None`), `path` a plain `str`;
the replicate fields are `Optional[str]`. -/
inductive ServiceAddressT where
  | generic (url : String)
  | socaity (url : String)
  | runpod (url : String) (pod_id : String) (path : String)
  | replicate (url : String) (model_name : Option String) (version : Option String)
deriving Repr, DecidableEq

/-- The `url` field shared by every address variant. -/
def ServiceAddressT.url : ServiceAddressT → String
  | .generic u => u
  | .socaity u => u
  | .runpod u _ _ => u
  | .replicate u _ _ => u

/-- `_url_sanitize`
(src/fastsdk/service_management/parsers/service_adress_parser.py:6-21). -/
def urlSanitize (url : String) : String :=
  if url = "" then url  -- `if not url: return url`
  else
    -- `url.strip("/")`
    let url := (url.dropWhile (· == '/')).dropRightWhile (· == '/')
    -- `if "/" not in url and "www." not in url and "http" not in url: return url`
    if !pyIn "/" url && !pyIn "www." url && !pyIn "http" url then url
    -- `if not url.startswith("http") ...` (the `https` conjunct is subsumed)
    else if !url.startsWith "http" then "http://" ++ url
    else url

/-- Result triple of `urllib.parse.urlparse` restricted to the components
`parse_runpod_url` reads (`scheme`, `netloc`, `path`); faithful for the
query-less, fragment-less URLs that function builds. -/
structure ParsedUrl where
  scheme : String
  netloc : String
  path : String
deriving Repr, DecidableEq

/-- Minimal `urllib.parse.urlparse` (see `ParsedUrl`). -/
def urlparse (url : String) : ParsedUrl :=
  match url.splitOn "://" with
  | [] => ⟨"", "", url⟩
  | [_] => ⟨"", "", url⟩  -- no scheme: everything is path
  | s :: rest =>
      let r := String.intercalate "://" rest
      let netloc := r.takeWhile (· ≠ '/')
      ⟨s, netloc, r.drop netloc.length⟩

/-- Python `s.split(sep, 1)`: the first field and, when the separator occurs,
the undivided remainder. -/
def splitOnce (s sep : String) : String × Option String :=
  match s.splitOn sep with
  | [] => (s, none)
  | [x] => (x, none)
  | x :: rest => (x, some (String.intercalate sep rest))

/-- `parse_runpod_url`
(src/fastsdk/service_management/parsers/service_adress_parser.py:24-68).
Returns `(url, pod_id, path)`; `pod_id` is `None` exactly on the
non-`api.runpod.ai` branch. -/
def parseRunpodUrl (url : String) : String × Option String × String :=
  let runpodUrl := "https://api.runpod.ai/v2/"
  -- `if 'http' not in url:` pod_id / localhost shorthands
  let url :=
    if !pyIn "http" url then
      (if pyIn "localhost" url then "http://" ++ url else runpodUrl ++ url)
    else url
  let parsed := urlparse url
  let path := parsed.path
  let path := if path.startsWith "/v2/" then path.drop 4 else path
  let path := path.replace "/run" ""  -- removes every occurrence, like `str.replace`
  if pyIn "api.runpod.ai" url then
    -- `parts = path.split("/", 1)`
    match splitOnce path "/" with
    | (podId, some rest) =>
        (parsed.scheme ++ "://" ++ parsed.netloc ++ "/v2/" ++ podId, some podId, rest)
    | (podId, none) =>
        (parsed.scheme ++ "://" ++ parsed.netloc ++ "/v2/" ++ podId, some podId, "")
  else
    (parsed.scheme ++ "://" ++ parsed.netloc, none, path)

/-- `parse_replicate_url`
(src/fastsdk/service_management/parsers/service_adress_parser.py:71-117).
Returns `(address, model_name, version)`; the `raise Exception` on an
unparseable models URL becomes a `valueError`. -/
def parseReplicateUrl (url : String) :
    Except PyErr (String × Option String × Option String) :=
  let baseUrl := "https://api.replicate.com/v1"
  let modelsUrl := baseUrl ++ "/models"
  let predictionsUrl := baseUrl ++ "/predictions"
  if url.startsWith modelsUrl then
    match (url.drop (modelsUrl.length + 1)).splitOn "/" with
    | usr :: modelName :: _ =>
        -- `if ":" in model_name: model_name, version = model_name.split(":")`
        let split : Except PyErr (String × Option String) :=
          if pyIn ":" modelName then
            match modelName.splitOn ":" with
            | [m, v] => .ok (m, some v)
            | _ => .error (.valueError "too many values to unpack")
          else .ok (modelName, none)
        match split with
        | .error e => .error e
        | .ok (modelName, version) =>
            let parsedUri := modelsUrl ++ "/" ++ usr ++ "/" ++ modelName
            -- `f"{parsed_uri}:{version}" if version else parsed_uri`
            let parsedUri :=
              match version with
              | some v => if v ≠ "" then parsedUri ++ ":" ++ v else parsedUri
              | none => parsedUri
            .ok (parsedUri ++ "/predictions", some (usr ++ "/" ++ modelName), version)
    | _ => .error (.valueError ("Couldn't parse replicate url " ++ url))
  else if url.startsWith predictionsUrl then
    -- `version = url.split("/")[-1]`
    .ok (predictionsUrl, none, some (((url.splitOn "/").getLast?).getD url))
  else if pyIn "/" url then
    .ok (baseUrl ++ url, some url, none)
  else
    .ok (predictionsUrl, none, some url)

/-- `determine_service_type`
(src/fastsdk/service_management/parsers/service_adress_parser.py:120-130). -/
def determineServiceType (serviceUrl : String) : String :=
  if pyIn "socaity.ai" serviceUrl then "socaity"
  else if pyIn "api.runpod.ai" serviceUrl then "runpod"
  else if pyIn "api.replicate.com" serviceUrl then "replicate"
  else "other"

/-- `create_service_address` for a string (or `None`) address
(src/fastsdk/service_management/parsers/service_adress_parser.py:133-186).
The `dict` and already-an-address input branches concern other input types
and are not exercised here.  A `RunpodServiceAddress(pod_id=None, ...)`
construction fails pydantic validation (`pod_id: str`). -/
def createServiceAddress (address : Option String) (provider : Option String := none) :
    Except PyErr (Option ServiceAddressT) :=
  match address with
  | none => .ok none  -- `if not address: return None`
  | some a =>
      if a = "" then .ok none  -- `""` is falsy too
      else
        -- `st = provider or determine_service_type(address)`
        let st :=
          match provider with
          | some p => if p ≠ "" then p else determineServiceType a
          | none => determineServiceType a
        if st = "socaity" then .ok (some (.socaity (urlSanitize a)))
        else if st = "replicate" then
          match parseReplicateUrl a with
          | .error e => .error e
          | .ok (url, modelName, version) =>
              .ok (some (.replicate (urlSanitize url) modelName version))
        else if st = "runpod" then
          match parseRunpodUrl a with
          | (url, some podId, path) => .ok (some (.runpod (urlSanitize url) podId path))
          | (_, none, _) => .error .validationError
        else .ok (some (.generic (urlSanitize a)))

/-! ## Service registry (`ServiceManager`) -/

/-- Python truthiness of an optional string (`None` and `""` are falsy). -/
def optStrTruthy : Option String → Bool
  | none => false
  | some s => s ≠ ""

/-- Helper collapsing runs of `_` for `normalizeNameForPy`. -/
def collapseUnderscoreRuns : List Char → List Char
  | [] => []
  | [c] => [c]
  | c1 :: c2 :: rest =>
      if c1 = '_' ∧ c2 = '_' then collapseUnderscoreRuns (c2 :: rest)
      else c1 :: collapseUnderscoreRuns (c2 :: rest)

/-- Modelled from the spec: `normalize_name_for_py`, which the service manager
imports from `fastsdk.utils` but which is absent from the source snapshot
(`utils.py` only defines `normalize_name`).  The spec's data-model section
describes the indexed normalized form as "lowercase, non-alphanumeric → `_`,
collapsed, leading-digit-prefixed". -/
def normalizeNameForPy (s : String) : String :=
  let mapped := s.toLower.data.map fun c => if c.isAlphanum then c else '_'
  let collapsed := collapseUnderscoreRuns mapped
  match collapsed with
  | c :: _ => if c.isDigit then String.mk ('_' :: collapsed) else String.mk collapsed
  | [] => ""

/-- Association-list removal (`dict.pop(k, None)`). -/
def alistRemove {α : Type} (l : List (String × α)) (k : String) : List (String × α) :=
  l.filter fun p => p.1 != k

/-- `ModelDefinition`, restricted to what `_link_service_dependencies` reads. -/
structure ModelL where
  id : Option String := none
  display_name : Option String := none
deriving Repr, DecidableEq

/-- `ServiceDefinition`
(src/fastsdk/service_management/service_definition.py:95-104), restricted to
the fields `ServiceManager` reads or writes. -/
structure ServiceDefL where
  id : Option String := none
  display_name : Option String := none
  description : Option String := none
  specification : String := "other"
  service_address : Option ServiceAddressT := none
  category : Option (List String) := none
  family_id : Option String := none
  used_models : Option (List ModelL) := none
deriving Repr, DecidableEq

/-- The mutable state of a `ServiceManager`
(src/fastsdk/service_management/service_manager.py:19-31), with no
`service_store` configured.  `_families` is omitted: no code path touched
here writes or reads it. -/
structure SMState where
  services : List (String × ServiceDefL) := []
  service_names : List (String × String) := []
  categories : List (String × Option String) := []
  category_names : List (String × String) := []
  models : List (String × ModelL) := []
  model_names : List (String × String) := []
deriving Repr, DecidableEq

/-- `ServiceManager._link_service_dependencies`
(src/fastsdk/service_management/service_manager.py:125-157). -/
def linkServiceDependencies (st : SMState) (sd : ServiceDefL) : SMState :=
  -- family link: `pass` in the source
  let st :=
    match sd.category with
    | some cats =>
        cats.foldl (fun st cid =>
          if (alistLookup st.categories cid).isSome then st
          else
            { st with
              categories := alistUpd st.categories cid none,
              category_names := alistUpd st.category_names
                (normalizeNameForPy ("Category " ++ cid)) cid }) st
    | none => st
  match sd.used_models with
  | some ms =>
      ms.foldl (fun st m =>
        -- `if model_id and model_id not in self._models:`
        if optStrTruthy m.id && (alistLookup st.models (m.id.getD "")).isNone then
          let mid := m.id.getD ""
          let dn := if optStrTruthy m.display_name then m.display_name.getD ""
                    else "Model " ++ mid
          { st with
            models := alistUpd st.models mid { id := some mid, display_name := some dn },
            model_names := alistUpd st.model_names (normalizeNameForPy dn) mid }
        else st) st
  | none => st

/-- `ServiceManager.add_service`
(src/fastsdk/service_management/service_manager.py:41-123) for a
`spec_source` that is already a `ServiceDefinition`
(`parse_service_definition` returns such an input unchanged) and a string or
absent `service_address` argument.  `freshId` stands in for
`str(uuid.uuid4())`.  No service store is configured. -/
def addService (st : SMState) (freshId : String) (specSource : ServiceDefL)
    (serviceId : Option String := none) (serviceAddress : Option String := none)
    (serviceName : Option String := none) (category : Option (List String) := none)
    (familyId : Option String := none) (usedModels : Option (List ModelL) := none)
    (specification : Option String := none) (description : Option String := none) :
    Except PyErr (SMState × ServiceDefL) :=
  let sd := specSource
  let sd := match serviceId with | some i => { sd with id := some i } | none => sd
  -- `if not service_def.id: service_def.id = "gen-" + str(uuid.uuid4())`
  let sd := if optStrTruthy sd.id then sd else { sd with id := some ("gen-" ++ freshId) }
  -- `if service_name: service_def.display_name = service_name`
  let sd := if optStrTruthy serviceName then { sd with display_name := serviceName } else sd
  -- `if not service_name and not service_def.display_name:`
  let sd :=
    if !optStrTruthy serviceName && !optStrTruthy sd.display_name then
      { sd with display_name := some ("unnamed_service_" ++ sd.id.getD "") }
    else sd
  -- name-collision with a different id only prints a warning; the mapping is
  -- overwritten unconditionally
  let newNames := alistUpd st.service_names
    (normalizeNameForPy (sd.display_name.getD "")) (sd.id.getD "")
  let st := { st with service_names := newNames }
  -- `if specification and isinstance(specification, str):`
  let sd := if optStrTruthy specification then
              { sd with specification := (specification.getD "").toLower }
            else sd
  -- `if service_address is not None and isinstance(service_address, str):`
  -- (the `spec_source`-is-a-URL and address-instance branches do not apply
  -- to a `ServiceDefinition` spec source with a string/absent address)
  match (match serviceAddress with
         | some a => createServiceAddress (some a) (some sd.specification)
         | none => .ok sd.service_address) with
  | .error e => .error e
  | .ok addr =>
      let sd := { sd with service_address := addr }
      let sd := match category with
                | some c => if c ≠ [] then { sd with category := some c } else sd
                | none => sd
      let sd := if optStrTruthy familyId then { sd with family_id := familyId } else sd
      let sd := match usedModels with
                | some ms => if ms ≠ [] then { sd with used_models := some ms } else sd
                | none => sd
      let sd := if optStrTruthy description then { sd with description := description } else sd
      -- `self._services[service_def.id] = service_def` — unconditional:
      -- an existing entry under the same id is silently overwritten
      let st := { st with services := alistUpd st.services (sd.id.getD "") sd }
      -- no service store: nothing to save
      let st := linkServiceDependencies st sd
      .ok (st, sd)

/-- `ServiceManager.get_service`
(src/fastsdk/service_management/service_manager.py:159-193) with no service
store configured.  The name-index path reads `self._services[service_id]`
unguarded, hence the possible `KeyError`. -/
def getService (st : SMState) (idOrName : String) : Except PyErr (Option ServiceDefL) :=
  match alistLookup st.services idOrName with
  | some s => .ok (some s)
  | none =>
      match alistLookup st.service_names (normalizeNameForPy idOrName) with
      | some sid =>
          match alistLookup st.services sid with
          | some s => .ok (some s)
          | none => .error (.keyError sid)
      | none => .ok none

/-- `ServiceManager.update_service`
(src/fastsdk/service_management/service_manager.py:195-236) applied to the
single keyword `display_name=value`, with no service store configured.
`hasattr(service, 'display_name')` holds, so the `display_name` branch runs:
it pops the old normalized name, indexes the new one — and performs no
`setattr`, so the record's `display_name` field itself is left as it was. -/
def updateServiceDisplayName (st : SMState) (idOrName : String) (value : String) :
    Except PyErr (SMState × Option ServiceDefL) :=
  match getService st idOrName with
  | .error e => .error e
  | .ok none => .ok (st, none)
  | .ok (some service) =>
      -- `if service.display_name:` remove the old normalized mapping
      let st :=
        if optStrTruthy service.display_name then
          let popped := alistRemove st.service_names
            (normalizeNameForPy (service.display_name.getD ""))
          { st with service_names := popped }
        else st
      -- `self._service_names[normalized] = service.id`
      let withNew := alistUpd st.service_names (normalizeNameForPy value)
        (service.id.getD "")
      let st := { st with service_names := withNew }
      -- `self._services[service.id] = service` (the unmodified record)
      let st := { st with services := alistUpd st.services (service.id.getD "") service }
      .ok (st, some service)

/-! ## Response parsing (`response_parser.py`, `response_parser_strategies.py`,
`base_response.py`) -/

/-- Python `x == "lit"` for an embedded value against a string literal. -/
def jsonEqStr (j : Json) (s : String) : Bool :=
  match j with
  | .str t => t == s
  | _ => false

/-- Python `x == n` for an embedded value against a number literal. -/
def jsonEqNum (j : Json) (q : Rat) : Bool :=
  match j with
  | .num t => t == q
  | _ => false

/-- The `RUNPOD_STATUS_MAPPINGS` table
(src/fastsdk/service_interaction/response/api_job_status.py:22-30). -/
def runpodStatusTable : String → Option APIJobStatus
  | "IN_QUEUE" => some .QUEUED
  | "IN_PROGRESS" => some .PROCESSING
  | "COMPLETED" => some .FINISHED
  | "FAILED" => some .FAILED
  | "CANCELLED" => some .CANCELLED
  | "TIMED_OUT" => some .TIMEOUT
  | _ => none

/-- The `REPLICATE_STATUS_MAPPINGS` table
(src/fastsdk/service_interaction/response/api_job_status.py:39-47). -/
def replicateStatusTable : String → Option APIJobStatus
  | "STARTING" => some .QUEUED
  | "BOOTING" => some .PROCESSING
  | "PROCESSING" => some .PROCESSING
  | "SUCCEEDED" => some .FINISHED
  | "FAILED" => some .FAILED
  | "CANCELED" => some .CANCELLED
  | _ => none

/-- Direct enum-value lookup, `cls(status_str)`
(src/fastsdk/service_interaction/response/api_job_status.py:9-15). -/
def statusDirect : String → Option APIJobStatus
  | "QUEUED" => some .QUEUED
  | "PROCESSING" => some .PROCESSING
  | "FINISHED" => some .FINISHED
  | "FAILED" => some .FAILED
  | "TIMEOUT" => some .TIMEOUT
  | "CANCELLED" => some .CANCELLED
  | "UNKNOWN" => some .UNKNOWN
  | _ => none

/-- `APIJobStatus.map_runpod_status`
(src/fastsdk/service_interaction/response/api_job_status.py:17-32).  A dict
lookup with an unhashable key (list/dict) raises `TypeError`. -/
def mapRunpodStatus (status : Json) : Except PyErr APIJobStatus :=
  if !status.truthy then .ok .UNKNOWN
  else match status with
    | .arr _ => .error .typeError
    | .obj _ => .error .typeError
    | .str s => .ok ((runpodStatusTable s).getD .UNKNOWN)
    | _ => .ok .UNKNOWN

/-- `APIJobStatus.map_replicate_status` (same file, lines 34-49). -/
def mapReplicateStatus (status : Json) : Except PyErr APIJobStatus :=
  if !status.truthy then .ok .UNKNOWN
  else match status with
    | .arr _ => .error .typeError
    | .obj _ => .error .typeError
    | .str s => .ok ((replicateStatusTable s).getD .UNKNOWN)
    | _ => .ok .UNKNOWN

/-- `APIJobStatus.from_str` (same file, lines 51-71).  Strings are upper-cased
and matched directly, then through the two provider tables; `cls(x)` on an
unhashable value raises `TypeError`; other non-strings fall through every
table to `UNKNOWN`. -/
def APIJobStatus.fromStr (statusStr : Json) : Except PyErr APIJobStatus :=
  if !statusStr.truthy then .ok .UNKNOWN
  else match statusStr with
    | .str s0 =>
        let s := s0.toUpper
        match statusDirect s with
        | some st => .ok st
        | none =>
            match mapRunpodStatus (.str s) with
            | .error e => .error e
            | .ok x => if x ≠ .UNKNOWN then .ok x else mapReplicateStatus (.str s)
    | .arr _ => .error .typeError
    | .obj _ => .error .typeError
    | _ => .ok .UNKNOWN

/-- `JobProgress`
(src/fastsdk/service_interaction/response/base_response.py:7-9). -/
structure JobProgress where
  progress : Rat := 0
  message : Option String := none
deriving Repr, DecidableEq

/-- Digit-string to number, for `pyFloat`. -/
def natOfDigits (l : List Char) : Option Nat :=
  if l ≠ [] ∧ l.all (·.isDigit) then
    some (l.foldl (fun a c => a * 10 + (c.toNat - 48)) 0)
  else none

/-- The plain-decimal fragment of Python's `float(str)` (sign, digits,
optional fraction).  The builtin also accepts exponents and `inf`/`nan`,
which no payload reaching this code path uses. -/
def parseRatString (s : String) : Option Rat :=
  let t := s.trim
  let signed : Rat × String :=
    if t.startsWith "-" then (-1, t.drop 1)
    else if t.startsWith "+" then (1, t.drop 1)
    else (1, t)
  match signed.2.splitOn "." with
  | [i] => (natOfDigits i.data).map fun n => signed.1 * (n : Rat)
  | [i, f] =>
      if i = "" ∧ f = "" then none
      else if i.data.all (·.isDigit) ∧ f.data.all (·.isDigit) then
        some (signed.1 * ((((natOfDigits i.data).getD 0 : Nat) : Rat) +
          (((natOfDigits f.data).getD 0 : Nat) : Rat) / ((10 : Rat) ^ f.length)))
      else none
  | _ => none

/-- The guarded `float(progress_value)` conversion of
`parse_status_and_progress`: `None` maps to `0.0` and `ValueError`/`TypeError`
are swallowed to `0.0`. -/
def pyFloat (v : Json) : Rat :=
  match v with
  | .null => 0
  | .num q => q
  | .bool b => if b then 1 else 0
  | .str s => (parseRatString s).getD 0
  | _ => 0

/-- `ResponseParserStrategy.parse_status_and_progress`
(src/fastsdk/service_interaction/response/response_parser_strategies.py:23-47).
The final `JobProgress(...)` construction validates `message` as
`Optional[str]`. -/
def parseStatusAndProgress (data : Json) :
    Except PyErr (APIJobStatus × JobProgress) :=
  match APIJobStatus.fromStr (data.get "status") with
  | .error e => .error e
  | .ok status =>
      let progressValue := data.getD "progress" (Json.num 0)
      let message := data.get "message"
      let pm :=
        match progressValue with
        | .obj l =>
            ((Json.obj l).getD "progress" (Json.num 0),
             (Json.obj l).getD "message" message)
        | v => (v, message)
      let p := pyFloat pm.1
      let p := if status = .FINISHED then 1 else p
      match pm.2 with
      | .null => .ok (status, { progress := p, message := none })
      | .str s => .ok (status, { progress := p, message := some s })
      | _ => .error .validationError

/-- pydantic validation of a `str` field value (v2 does not coerce). -/
def asStr : Json → Except PyErr String
  | .str s => .ok s
  | _ => .error .validationError

/-- pydantic validation of an `Optional[str]` field value. -/
def asOptStr : Json → Except PyErr (Option String)
  | .null => .ok none
  | .str s => .ok (some s)
  | _ => .error .validationError

/-- pydantic validation of an `Optional[int]` field value (lax mode accepts
integral floats and integer strings; bools are rejected). -/
def asOptInt : Json → Except PyErr (Option Int)
  | .null => .ok none
  | .num q => if q.den = 1 then .ok (some q.num) else .error .validationError
  | .str s => match s.toInt? with
              | some n => .ok (some n)
              | none => .error .validationError
  | _ => .error .validationError

/-- pydantic validation of an `Optional[bool]` field value (lax mode accepts
`0`/`1` and the usual true/false strings). -/
def asOptBool : Json → Except PyErr (Option Bool)
  | .null => .ok none
  | .bool b => .ok (some b)
  | .num q => if q = 0 then .ok (some false)
              else if q = 1 then .ok (some true)
              else .error .validationError
  | .str s =>
      if ["true", "t", "yes", "y", "on", "1"].contains s.toLower then .ok (some true)
      else if ["false", "f", "no", "n", "off", "0"].contains s.toLower then .ok (some false)
      else .error .validationError
  | _ => .error .validationError

/-- pydantic validation of an `Optional[dict[str, Any]]` field value. -/
def asOptDict : Json → Except PyErr (Option Json)
  | .null => .ok none
  | .obj l => .ok (some (.obj l))
  | _ => .error .validationError

/-- `data[k]`: `KeyError` when absent, `TypeError` off a non-dict. -/
def pyIndex (d : Json) (k : String) : Except PyErr Json :=
  match d with
  | .obj l =>
      match alistGet l k with
      | some v => .ok v
      | none => .error (.keyError k)
  | _ => .error .typeError

/-- `SocaityResponseParser.can_parse`
(src/fastsdk/service_interaction/response/response_parser_strategies.py:51-55). -/
def socaityCanParse (data : Json) : Bool :=
  data.isDict && jsonEqStr (data.get "endpoint_protocol") "socaity" &&
    data.hasKey "id" && data.hasKey "status"

/-- `RunpodResponseParser.can_parse` (same file, lines 95-102). -/
def runpodCanParse (data : Json) : Except PyErr Bool :=
  if !data.isDict then .ok false
  else if data.hasKey "id" && data.hasKey "status" then
    match mapRunpodStatus (data.get "status") with
    | .error e => .error e
    | .ok st => .ok (st ≠ .UNKNOWN)
  else .ok false

/-- `ReplicateResponseParser.can_parse` (same file, lines 126-128).  Unlike
the other two strategies there is no `isinstance(data, dict)` guard:
`data.get` off a non-dict raises `AttributeError`; so does `.get` off a
truthy non-dict `urls`; `in` against a non-container `urls.get("get", "")`
raises `TypeError`, while Python list/dict membership is modelled faithfully. -/
def replicateCanParse (data : Json) : Except PyErr Bool :=
  match data with
  | .obj _ =>
      let urls := data.getD "urls" (Json.obj [])
      if !urls.truthy then .ok false
      else match urls with
        | .obj l =>
            match (Json.obj l).getD "get" (Json.str "") with
            | .str g => .ok (pyIn "api.replicate.com" g)
            | .arr el => .ok (el.any fun j => jsonEqStr j "api.replicate.com")
            | .obj kv => .ok (kv.any fun p => p.1 == "api.replicate.com")
            | _ => .error .typeError
        | _ => .error .attributeError
  | _ => .error .attributeError

/-- `SocaityJobResponse`
(src/fastsdk/service_interaction/response/base_response.py:18-40).  `result`
keeps the convention `Json.null = None`; after media parsing it may hold the
opaque output of the external `media_from_FileModel`. -/
structure SocaityJobResponse where
  id : String
  status : APIJobStatus
  progress : Option JobProgress := none
  error : Option String := none
  result : Json := Json.null
  refresh_job_url : Option String := none
  cancel_job_url : Option String := none
  service_specification : Option String := none
  created_at : Option String := none
  execution_started_at : Option String := none
  execution_finished_at : Option String := none
  endpoint_protocol : String := "socaity"
deriving Repr

/-- `RunpodJobResponse` (same file, lines 43-47). -/
structure RunpodJobResponse where
  id : String
  status : APIJobStatus
  progress : Option JobProgress := none
  error : Option String := none
  result : Json := Json.null
  refresh_job_url : Option String := none
  cancel_job_url : Option String := none
  service_specification : Option String := none
  delayTime : Option Int := none
  executionTime : Option Int := none
  retries : Option Int := none
  workerId : Option String := none
deriving Repr

/-- `ReplicateJobResponse` (same file, lines 50-78), data fields only (the
`execution_time_ms` computed field is derived, not stored). -/
structure ReplicateJobResponse where
  id : String
  status : APIJobStatus
  progress : Option JobProgress := none
  error : Option String := none
  result : Json := Json.null
  refresh_job_url : Option String := none
  cancel_job_url : Option String := none
  service_specification : Option String := none
  created_at : Option String := none
  execution_started_at : Option String := none
  execution_finished_at : Option String := none
  metrics : Option Json := none
  stream_job_url : Option String := none
  version : Option String := none
  data_removed : Option Bool := none
  logs : Option String := none
deriving Repr

/-- `SocaityResponseParser._parse_media_result`
(src/fastsdk/service_interaction/response/response_parser_strategies.py:57-71).
`media` is the external `media_from_FileModel` (with its
`default_return_if_not_file_result` behaviour folded in). -/
def socaityParseMediaResult (media : Json → Json) (result : Json) : Json :=
  match result with
  | .obj l => media (.obj l)
  | .arr l => .arr (l.map media)
  | j => j

mutual

/-- `ReplicateResponseParser._parse_media_result` (same file, lines 130-139).
`media` is the external `media_from_any`. -/
def replicateParseMediaResult (media : Json → Json) : Json → Json
  | .str s => if pyIn "https://replicate.delivery" s then media (.str s) else .str s
  | .arr l => .arr (replicateMediaList media l)
  | j => j
termination_by j => (sizeOf j, 0)
decreasing_by all_goals (simp_wf <;> omega)

/-- List helper of `replicateParseMediaResult`. -/
def replicateMediaList (media : Json → Json) : List Json → List Json
  | [] => []
  | x :: rest => replicateParseMediaResult media x :: replicateMediaList media rest
termination_by l => (sizeOf l, 1)
decreasing_by all_goals (simp_wf <;> omega)

end

/-- `SocaityResponseParser.parse`
(src/fastsdk/service_interaction/response/response_parser_strategies.py:73-91).
Validation failures of the pydantic constructor surface as
`validationError`; `data["id"]` raises on a missing key. -/
def socaityParse (media : Json → Json) (parseMedia : Bool) (data : Json) :
    Except PyErr SocaityJobResponse := do
  let sp ← parseStatusAndProgress data
  let result0 := data.get "result"
  let result := if parseMedia then socaityParseMediaResult media result0 else result0
  let idv ← pyIndex data "id"
  let id ← asStr idv
  let error ← asOptStr (data.get "error")
  let refresh ← asOptStr (data.getD "refresh_job_url" (Json.str ("/status/" ++ idv.pyStr)))
  let cancel ← asOptStr (data.getD "cancel_job_url" (Json.str ("/cancel/" ++ idv.pyStr)))
  let createdAt ← asOptStr (data.get "created_at")
  let startedAt ← asOptStr (data.get "execution_started_at")
  let finishedAt ← asOptStr (data.get "execution_finished_at")
  -- `endpoint_protocol=data.get("endpoint_protocol", None)`, a required `str`
  let protocol ← asStr (data.get "endpoint_protocol")
  .ok { id := id, status := sp.1, progress := some sp.2, error := error,
        result := result, refresh_job_url := refresh, cancel_job_url := cancel,
        created_at := createdAt, execution_started_at := startedAt,
        execution_finished_at := finishedAt, endpoint_protocol := protocol }

/-- `RunpodResponseParser.parse` (same file, lines 104-122); the media
conversion is commented out in the source, so `parse_media` has no effect
and `result` is the raw `output` field. -/
def runpodParse (data : Json) : Except PyErr RunpodJobResponse := do
  let sp ← parseStatusAndProgress data
  let result := data.get "output"
  let idv ← pyIndex data "id"
  let id ← asStr idv
  let error ← asOptStr (data.get "error")
  let refresh ← asOptStr (data.getD "refresh_job_url" (Json.str ("/status/" ++ idv.pyStr)))
  let cancel ← asOptStr (data.getD "cancel_job_url" (Json.str ("/cancel/" ++ idv.pyStr)))
  let delayTime ← asOptInt (data.get "delayTime")
  let executionTime ← asOptInt (data.get "executionTime")
  let retries ← asOptInt (data.get "retries")
  let workerId ← asOptStr (data.get "workerId")
  .ok { id := id, status := sp.1, progress := some sp.2, error := error,
        result := result, refresh_job_url := refresh, cancel_job_url := cancel,
        delayTime := delayTime, executionTime := executionTime,
        retries := retries, workerId := workerId }

/-- `ReplicateResponseParser.parse` (same file, lines 141-173).  The
`endpoint_protocol="replicate"` constructor argument is ignored: the class
declares no such field (pydantic's default ignores extras). -/
def replicateParse (media : Json → Json) (parseMedia : Bool) (data : Json) :
    Except PyErr ReplicateJobResponse := do
  let sp ← parseStatusAndProgress data
  -- replicate-specific status edge case
  let status :=
    if sp.1 = .UNKNOWN then
      (if jsonEqNum (data.getD "status_code" (Json.num 200)) 200 &&
          !(data.getD "is_error" (Json.bool false)).truthy then
        APIJobStatus.FINISHED
      else sp.1)
    else sp.1
  let urls := data.getD "urls" (Json.obj [])
  let jobId := data.getD "id" (Json.str "")
  let result0 := data.get "output"
  let result := if parseMedia then replicateParseMediaResult media result0 else result0
  let id ← asStr jobId
  let error ← asOptStr (data.get "error")
  -- `urls.get(...)` raises `AttributeError` when `urls` is not a dict
  let urlsD ← (match urls with
               | .obj l => .ok (Json.obj l)
               | _ => .error .attributeError)
  let refresh ← asOptStr (urlsD.getD "get" (Json.str ("v1/predictions/" ++ jobId.pyStr)))
  let cancel ← asOptStr (urlsD.getD "cancel" (Json.str ("v1/predictions/" ++ jobId.pyStr ++ "/cancel")))
  let stream ← asOptStr (urlsD.get "stream")
  let version ← asOptStr (data.get "version")
  let dataRemoved ← asOptBool (data.get "data_removed")
  let logs ← asOptStr (data.get "logs")
  let metrics ← asOptDict (data.get "metrics")
  let createdAt ← asOptStr (data.get "created_at")
  let startedAt ← asOptStr (data.get "started_at")
  let finishedAt ← asOptStr (data.get "completed_at")
  .ok { id := id, status := status, progress := some sp.2, error := error,
        result := result, refresh_job_url := refresh, cancel_job_url := cancel,
        created_at := createdAt, execution_started_at := startedAt,
        execution_finished_at := finishedAt, metrics := metrics,
        stream_job_url := stream, version := version,
        data_removed := dataRemoved, logs := logs }

/-- A value in a `model_dump(exclude_unset=True)` dictionary.  `vnone` is the
Python `None` that `BaseJobResponse.update` skips. -/
inductive PyDumpVal where
  | vnone
  | vstr (s : String)
  | vstatus (s : APIJobStatus)
  | vprog (p : JobProgress)
  | vjson (j : Json)
  | vint (n : Int)
  | vbool (b : Bool)
deriving Repr

/-- Dump of an `Optional[str]` field. -/
def optStrDump : Option String → PyDumpVal
  | some s => .vstr s
  | none => .vnone

/-- Dump of an `Optional[int]` field. -/
def optIntDump : Option Int → PyDumpVal
  | some n => .vint n
  | none => .vnone

/-- Dump of an `Optional[bool]` field. -/
def optBoolDump : Option Bool → PyDumpVal
  | some b => .vbool b
  | none => .vnone

/-- Dump of an `Optional[JobProgress]` field (pydantic dumps the nested model
as a dict; its content is what matters for `update`). -/
def optProgDump : Option JobProgress → PyDumpVal
  | some p => .vprog p
  | none => .vnone

/-- Dump of a `result`-style `Any` field (`Json.null` is `None`). -/
def jsonDump (j : Json) : PyDumpVal :=
  if j.isNull then .vnone else .vjson j

/-- Dump of an `Optional[dict]` field. -/
def optJsonDump : Option Json → PyDumpVal
  | some j => .vjson j
  | none => .vnone

/-- `model_dump(exclude_unset=True)` of a `SocaityJobResponse` built by
`SocaityResponseParser.parse`: every field the constructor passes, in field
definition order; `service_specification` is never set and is excluded. -/
def socaityDump (r : SocaityJobResponse) : List (String × PyDumpVal) :=
  [("id", .vstr r.id),
   ("status", .vstatus r.status),
   ("progress", optProgDump r.progress),
   ("error", optStrDump r.error),
   ("result", jsonDump r.result),
   ("refresh_job_url", optStrDump r.refresh_job_url),
   ("cancel_job_url", optStrDump r.cancel_job_url),
   ("created_at", optStrDump r.created_at),
   ("execution_started_at", optStrDump r.execution_started_at),
   ("execution_finished_at", optStrDump r.execution_finished_at),
   ("endpoint_protocol", .vstr r.endpoint_protocol)]

/-- `model_dump(exclude_unset=True)` of a `RunpodJobResponse` built by
`RunpodResponseParser.parse`; `service_specification` is never set. -/
def runpodDump (r : RunpodJobResponse) : List (String × PyDumpVal) :=
  [("id", .vstr r.id),
   ("status", .vstatus r.status),
   ("progress", optProgDump r.progress),
   ("error", optStrDump r.error),
   ("result", jsonDump r.result),
   ("refresh_job_url", optStrDump r.refresh_job_url),
   ("cancel_job_url", optStrDump r.cancel_job_url),
   ("delayTime", optIntDump r.delayTime),
   ("executionTime", optIntDump r.executionTime),
   ("retries", optIntDump r.retries),
   ("workerId", optStrDump r.workerId)]

/-- `model_dump(exclude_unset=True)` of a `ReplicateJobResponse` built by
`ReplicateResponseParser.parse`; `service_specification` is never set, the
`endpoint_protocol` extra was discarded at construction.  The dump also
carries the `execution_time_ms` computed field; its value is irrelevant to
every consumer (no response class declares that attribute, so `update`
skips the key), hence it is carried as `vnone` rather than re-deriving the
datetime arithmetic. -/
def replicateDump (r : ReplicateJobResponse) : List (String × PyDumpVal) :=
  [("id", .vstr r.id),
   ("status", .vstatus r.status),
   ("progress", optProgDump r.progress),
   ("error", optStrDump r.error),
   ("result", jsonDump r.result),
   ("refresh_job_url", optStrDump r.refresh_job_url),
   ("cancel_job_url", optStrDump r.cancel_job_url),
   ("created_at", optStrDump r.created_at),
   ("execution_started_at", optStrDump r.execution_started_at),
   ("execution_finished_at", optStrDump r.execution_finished_at),
   ("metrics", optJsonDump r.metrics),
   ("stream_job_url", optStrDump r.stream_job_url),
   ("version", optStrDump r.version),
   ("data_removed", optBoolDump r.data_removed),
   ("logs", optStrDump r.logs),
   ("execution_time_ms", .vnone)]

/-- One iteration of the `BaseJobResponse.update` loop
(src/fastsdk/service_interaction/response/base_response.py:28-33) on a
`RunpodJobResponse` receiver: `if hasattr(self, key) and value is not None:
setattr(self, key, value)`.  Key/value combinations that the dumps above
never produce (for example an `int` under `"id"`) are left untouched by the
wildcard; they are unreachable from the parsers. -/
def runpodSetAttr (r : RunpodJobResponse) (kv : String × PyDumpVal) :
    RunpodJobResponse :=
  if kv.1 = "id" then (match kv.2 with | .vstr s => { r with id := s } | _ => r)
  else if kv.1 = "status" then (match kv.2 with | .vstatus st => { r with status := st } | _ => r)
  else if kv.1 = "progress" then (match kv.2 with | .vprog p => { r with progress := some p } | _ => r)
  else if kv.1 = "error" then (match kv.2 with | .vstr s => { r with error := some s } | _ => r)
  else if kv.1 = "result" then (match kv.2 with | .vjson j => { r with result := j } | _ => r)
  else if kv.1 = "refresh_job_url" then (match kv.2 with | .vstr s => { r with refresh_job_url := some s } | _ => r)
  else if kv.1 = "cancel_job_url" then (match kv.2 with | .vstr s => { r with cancel_job_url := some s } | _ => r)
  else if kv.1 = "service_specification" then (match kv.2 with | .vstr s => { r with service_specification := some s } | _ => r)
  else if kv.1 = "delayTime" then (match kv.2 with | .vint n => { r with delayTime := some n } | _ => r)
  else if kv.1 = "executionTime" then (match kv.2 with | .vint n => { r with executionTime := some n } | _ => r)
  else if kv.1 = "retries" then (match kv.2 with | .vint n => { r with retries := some n } | _ => r)
  else if kv.1 = "workerId" then (match kv.2 with | .vstr s => { r with workerId := some s } | _ => r)
  else r

/-- `BaseJobResponse.update` on a `RunpodJobResponse` receiver: fold the
other response's dump over `runpodSetAttr`. -/
def runpodUpdate (r : RunpodJobResponse) (entries : List (String × PyDumpVal)) :
    RunpodJobResponse :=
  entries.foldl runpodSetAttr r

/-- A parsed job response, tagged by the strategy that produced it. -/
inductive JobResponseT where
  | socaity (r : SocaityJobResponse)
  | runpod (r : RunpodJobResponse)
  | replicate (r : ReplicateJobResponse)
deriving Repr

/-- `model_dump(exclude_unset=True)` dispatched on the concrete class. -/
def JobResponseT.dump : JobResponseT → List (String × PyDumpVal)
  | .socaity r => socaityDump r
  | .runpod r => runpodDump r
  | .replicate r => replicateDump r

/-- What `ResponseParser.parse_response` can return: `None` for a missing
response, the raw `response.content` bytes, the raw decoded JSON when no
strategy matches, or a structured job response. -/
inductive ParseOutcome where
  | nothing
  | bytes (content : String)
  | raw (data : Json)
  | resp (r : JobResponseT)
deriving Repr

/-- The slice of an `httpx.Response` that `parse_response` reads:
the `Content-Type` header (defaulted to `""`), the raw `content` bytes, and
what `response.json()` yields (`none` standing for a `JSONDecodeError`). -/
structure HttpResponse where
  contentType : String
  content : String
  json : Option Json
deriving Repr

/-- `any(strategy.can_parse(nested_data) for strategy in self.strategies)`,
with the generator's short-circuit order and exception behaviour. -/
def anyCanParse (data : Json) : Except PyErr Bool :=
  if socaityCanParse data then .ok true
  else match runpodCanParse data with
    | .error e => .error e
    | .ok true => .ok true
    | .ok false => replicateCanParse data

/-- The strategy loop and nested-Runpod recovery of
`ResponseParser.parse_response`
(src/fastsdk/service_interaction/response/response_parser.py:25-45), acting
on the already-decoded JSON body.  `loads` is Python's `json.loads` on the
nested `result` string (`none` = `JSONDecodeError`, which the source catches
with `pass`); `media` the external media decoder; `fuel` stands for the
interpreter's recursion limit (the recursive `self.parse_response` call on a
constructed JSON 200 response goes straight back to this strategy loop). -/
def parseJsonData (fuel : Nat) (loads : String → Option Json) (media : Json → Json)
    (data : Json) (parseMedia : Bool) : Except PyErr ParseOutcome :=
  match fuel with
  | 0 => .error .recursionError
  | fuel + 1 =>
    if socaityCanParse data then
      match socaityParse media parseMedia data with
      | .error e => .error e
      | .ok r => .ok (.resp (.socaity r))  -- not a RunpodJobResponse: no recovery
    else match runpodCanParse data with
      | .error e => .error e
      | .ok true =>
          match runpodParse data with
          | .error e => .error e
          | .ok r =>
              match r.result with
              | .str s =>
                  (match loads s with
                   | none => .ok (.resp (.runpod r))  -- decode error → `pass`
                   | some nested =>
                       match anyCanParse nested with
                       | .error e => .error e
                       | .ok false => .ok (.resp (.runpod r))
                       | .ok true =>
                           match parseJsonData fuel loads media nested true with
                           | .error e => .error e
                           | .ok (.resp nr) =>
                               .ok (.resp (.runpod (runpodUpdate r nr.dump)))
                           | .ok _ => .ok (.resp (.runpod r)))
                           -- unreachable: some strategy matched `nested`
              | _ => .ok (.resp (.runpod r))
      | .ok false =>
          match replicateCanParse data with
          | .error e => .error e
          | .ok true =>
              match replicateParse media parseMedia data with
              | .error e => .error e
              | .ok r => .ok (.resp (.replicate r))
          | .ok false => .ok (.raw data)

/-- `ResponseParser.parse_response`
(src/fastsdk/service_interaction/response/response_parser.py:17-48).
An `httpx.Response` has no `__bool__`, so `if not response` is the
argument-is-`None` test, modelled by the `Option`. -/
def parseResponse (fuel : Nat) (loads : String → Option Json) (media : Json → Json)
    (response : Option HttpResponse) (parseMedia : Bool) : Except PyErr ParseOutcome :=
  match response with
  | none => .ok .nothing
  | some r =>
      -- `if "application/json" not in response.headers.get("Content-Type", "")`
      if !pyIn "application/json" r.contentType then .ok (.bytes r.content)
      else match r.json with
        | none => .ok (.bytes r.content)  -- `except json.JSONDecodeError`
        | some data => parseJsonData fuel loads media data parseMedia

/-- Merge of one optional field under `update`: the incoming value wins
unless it is `None`. -/
def mergeOpt {α : Type} (old incoming : Option α) : Option α :=
  match incoming with
  | some x => some x
  | none => old

/-- Base-field projections of a parsed response, for stating the merge law. -/
def JobResponseT.idOf : JobResponseT → String
  | .socaity r => r.id
  | .runpod r => r.id
  | .replicate r => r.id

/-- `status` of a parsed response. -/
def JobResponseT.statusOf : JobResponseT → APIJobStatus
  | .socaity r => r.status
  | .runpod r => r.status
  | .replicate r => r.status

/-- `progress` of a parsed response. -/
def JobResponseT.progressOf : JobResponseT → Option JobProgress
  | .socaity r => r.progress
  | .runpod r => r.progress
  | .replicate r => r.progress

/-- `error` of a parsed response. -/
def JobResponseT.errorOf : JobResponseT → Option String
  | .socaity r => r.error
  | .runpod r => r.error
  | .replicate r => r.error

/-- `result` of a parsed response. -/
def JobResponseT.resultOf : JobResponseT → Json
  | .socaity r => r.result
  | .runpod r => r.result
  | .replicate r => r.result

/-- `refresh_job_url` of a parsed response. -/
def JobResponseT.refreshOf : JobResponseT → Option String
  | .socaity r => r.refresh_job_url
  | .runpod r => r.refresh_job_url
  | .replicate r => r.refresh_job_url

/-- `cancel_job_url` of a parsed response. -/
def JobResponseT.cancelOf : JobResponseT → Option String
  | .socaity r => r.cancel_job_url
  | .runpod r => r.cancel_job_url
  | .replicate r => r.cancel_job_url

/-- `delayTime` where the response has one (`RunpodJobResponse` only). -/
def JobResponseT.delayTimeOf : JobResponseT → Option Int
  | .runpod r => r.delayTime
  | _ => none

/-- `executionTime` where the response has one. -/
def JobResponseT.executionTimeOf : JobResponseT → Option Int
  | .runpod r => r.executionTime
  | _ => none

/-- `retries` where the response has one. -/
def JobResponseT.retriesOf : JobResponseT → Option Int
  | .runpod r => r.retries
  | _ => none

/-- `workerId` where the response has one. -/
def JobResponseT.workerIdOf : JobResponseT → Option String
  | .runpod r => r.workerId
  | _ => none

/-! ## Concrete fixtures for the theorems below -/

/-- Endpoint with one required media parameter and no default
(the spec's "Missing required parameter" scenario). -/
def epImage : EndpointDefinition :=
  { path := "/gen",
    parameters := [{ name := "image", type := .one "image", required := true,
                     default := Json.null, location := "body" }] }

/-- A registered service definition. -/
def svc0 : ServiceDefL :=
  { id := some "svc1", display_name := some "My Service" }

/-- The registry after adding `svc0` to an empty manager. -/
def smAfterAdd : SMState :=
  match addService {} "f1" svc0 with
  | .ok (st, _) => st
  | .error _ => {}

/-- The registry after `update_service("svc1", display_name="New Name")`. -/
def smAfterUpdate : SMState :=
  match updateServiceDisplayName smAfterAdd "svc1" "New Name" with
  | .ok (st, _) => st
  | .error _ => {}

/-- An HTTP stack that answers only the exact direct URL `http://host/spec`
and fails every other path. -/
def demoFetch : String → FetchResult :=
  fun u => if u = "http://host/spec" then .ok (Json.obj []) else .httpErr

/-- A file handler with an async uploader and a 10 MB cloud threshold
(the Replicate profile of `add_file_handler`, without the hard cap). -/
def fhThreshold10 : FileHandler :=
  { fast_cloud := some ⟨true⟩, upload_to_cloud_threshold_mb := some 10 }

/-- A one-file batch of exactly 10 MB. -/
def batchAt10 : MediaBatch := { names := ["image"], sizeMb := 10 }

/-- A one-file batch of 9 MB. -/
def batchAt9 : MediaBatch := { names := ["image"], sizeMb := 9 }

/-- The nested Socaity payload of the spec's Runpod scenario. -/
def innerData0 : Json :=
  Json.obj [("id", .str "s1"), ("status", .str "FINISHED"),
            ("endpoint_protocol", .str "socaity"), ("result", .str "ok")]

/-- The outer Runpod payload whose `output` is a JSON-encoded string. -/
def outerData0 : Json :=
  Json.obj [("id", .str "r1"), ("status", .str "COMPLETED"),
            ("output", .str "NESTED")]

/-- `json.loads` oracle: decodes the marker string to the nested payload. -/
def loads0 : String → Option Json :=
  fun s => if s = "NESTED" then some innerData0 else none

/-- What `RunpodResponseParser.parse` yields on `outerData0`. -/
def outerResp0 : RunpodJobResponse :=
  { id := "r1", status := .FINISHED, progress := some ⟨1, none⟩,
    result := .str "NESTED", refresh_job_url := some "/status/r1",
    cancel_job_url := some "/cancel/r1" }

/-- What `SocaityResponseParser.parse` yields on `innerData0`. -/
def innerResp0 : SocaityJobResponse :=
  { id := "s1", status := .FINISHED, progress := some ⟨1, none⟩,
    result := .str "ok", refresh_job_url := some "/status/s1",
    cancel_job_url := some "/cancel/s1", endpoint_protocol := "socaity" }

/-- The idempotence formula `parse(parse(u).url) == parse(u)` at one input
(with the same optional provider hint on both parses), for inputs the first
parse accepts. -/
def idempotentAt (u : String) (provider : Option String) : Prop :=
  ∃ a, createServiceAddress (some u) provider = .ok (some a) ∧
    createServiceAddress (some a.url) provider = .ok (some a)

/-! ## Theorems

First, helper lemmas describing one `update` step per dumped entry. -/

lemma runpodSetAttr_id (r : RunpodJobResponse) (s : String) :
    runpodSetAttr r ("id", .vstr s) = { r with id := s } := rfl

lemma runpodSetAttr_status (r : RunpodJobResponse) (st : APIJobStatus) :
    runpodSetAttr r ("status", .vstatus st) = { r with status := st } := rfl

lemma runpodSetAttr_progress (r : RunpodJobResponse) (o : Option JobProgress) :
    runpodSetAttr r ("progress", optProgDump o) =
      { r with progress := mergeOpt r.progress o } := by
  cases o <;> rfl

lemma runpodSetAttr_error (r : RunpodJobResponse) (o : Option String) :
    runpodSetAttr r ("error", optStrDump o) =
      { r with error := mergeOpt r.error o } := by
  cases o <;> rfl

lemma runpodSetAttr_result (r : RunpodJobResponse) (j : Json) :
    runpodSetAttr r ("result", jsonDump j) =
      { r with result := if j.isNull then r.result else j } := by
  cases j <;> rfl

lemma runpodSetAttr_refresh (r : RunpodJobResponse) (o : Option String) :
    runpodSetAttr r ("refresh_job_url", optStrDump o) =
      { r with refresh_job_url := mergeOpt r.refresh_job_url o } := by
  cases o <;> rfl

lemma runpodSetAttr_cancel (r : RunpodJobResponse) (o : Option String) :
    runpodSetAttr r ("cancel_job_url", optStrDump o) =
      { r with cancel_job_url := mergeOpt r.cancel_job_url o } := by
  cases o <;> rfl

lemma runpodSetAttr_delayTime (r : RunpodJobResponse) (o : Option Int) :
    runpodSetAttr r ("delayTime", optIntDump o) =
      { r with delayTime := mergeOpt r.delayTime o } := by
  cases o <;> rfl

lemma runpodSetAttr_executionTime (r : RunpodJobResponse) (o : Option Int) :
    runpodSetAttr r ("executionTime", optIntDump o) =
      { r with executionTime := mergeOpt r.executionTime o } := by
  cases o <;> rfl

lemma runpodSetAttr_retries (r : RunpodJobResponse) (o : Option Int) :
    runpodSetAttr r ("retries", optIntDump o) =
      { r with retries := mergeOpt r.retries o } := by
  cases o <;> rfl

lemma runpodSetAttr_workerId (r : RunpodJobResponse) (o : Option String) :
    runpodSetAttr r ("workerId", optStrDump o) =
      { r with workerId := mergeOpt r.workerId o } := by
  cases o <;> rfl

lemma runpodSetAttr_created_at (r : RunpodJobResponse) (v : PyDumpVal) :
    runpodSetAttr r ("created_at", v) = r := rfl

lemma runpodSetAttr_exec_started (r : RunpodJobResponse) (v : PyDumpVal) :
    runpodSetAttr r ("execution_started_at", v) = r := rfl

lemma runpodSetAttr_exec_finished (r : RunpodJobResponse) (v : PyDumpVal) :
    runpodSetAttr r ("execution_finished_at", v) = r := rfl

lemma runpodSetAttr_endpoint_protocol (r : RunpodJobResponse) (v : PyDumpVal) :
    runpodSetAttr r ("endpoint_protocol", v) = r := rfl

lemma runpodSetAttr_metrics (r : RunpodJobResponse) (v : PyDumpVal) :
    runpodSetAttr r ("metrics", v) = r := rfl

lemma runpodSetAttr_stream (r : RunpodJobResponse) (v : PyDumpVal) :
    runpodSetAttr r ("stream_job_url", v) = r := rfl

lemma runpodSetAttr_version (r : RunpodJobResponse) (v : PyDumpVal) :
    runpodSetAttr r ("version", v) = r := rfl

lemma runpodSetAttr_data_removed (r : RunpodJobResponse) (v : PyDumpVal) :
    runpodSetAttr r ("data_removed", v) = r := rfl

lemma runpodSetAttr_logs (r : RunpodJobResponse) (v : PyDumpVal) :
    runpodSetAttr r ("logs", v) = r := rfl

lemma runpodSetAttr_exec_time_ms (r : RunpodJobResponse) (v : PyDumpVal) :
    runpodSetAttr r ("execution_time_ms", v) = r := rfl

/-- Merging a dumped Socaity response into a Runpod response, field by field. -/
lemma runpodUpdate_socaityDump (outer : RunpodJobResponse) (inner : SocaityJobResponse) :
    runpodUpdate outer (socaityDump inner) =
      { outer with
        id := inner.id, status := inner.status,
        progress := mergeOpt outer.progress inner.progress,
        error := mergeOpt outer.error inner.error,
        result := if inner.result.isNull then outer.result else inner.result,
        refresh_job_url := mergeOpt outer.refresh_job_url inner.refresh_job_url,
        cancel_job_url := mergeOpt outer.cancel_job_url inner.cancel_job_url } := by
  simp only [runpodUpdate, socaityDump, List.foldl,
    runpodSetAttr_id, runpodSetAttr_status, runpodSetAttr_progress,
    runpodSetAttr_error, runpodSetAttr_result, runpodSetAttr_refresh,
    runpodSetAttr_cancel, runpodSetAttr_created_at, runpodSetAttr_exec_started,
    runpodSetAttr_exec_finished, runpodSetAttr_endpoint_protocol]

/-- Merging a dumped Runpod response into a Runpod response, field by field. -/
lemma runpodUpdate_runpodDump (outer inner : RunpodJobResponse) :
    runpodUpdate outer (runpodDump inner) =
      { outer with
        id := inner.id, status := inner.status,
        progress := mergeOpt outer.progress inner.progress,
        error := mergeOpt outer.error inner.error,
        result := if inner.result.isNull then outer.result else inner.result,
        refresh_job_url := mergeOpt outer.refresh_job_url inner.refresh_job_url,
        cancel_job_url := mergeOpt outer.cancel_job_url inner.cancel_job_url,
        delayTime := mergeOpt outer.delayTime inner.delayTime,
        executionTime := mergeOpt outer.executionTime inner.executionTime,
        retries := mergeOpt outer.retries inner.retries,
        workerId := mergeOpt outer.workerId inner.workerId } := by
  simp only [runpodUpdate, runpodDump, List.foldl,
    runpodSetAttr_id, runpodSetAttr_status, runpodSetAttr_progress,
    runpodSetAttr_error, runpodSetAttr_result, runpodSetAttr_refresh,
    runpodSetAttr_cancel, runpodSetAttr_delayTime, runpodSetAttr_executionTime,
    runpodSetAttr_retries, runpodSetAttr_workerId]

/-- Merging a dumped Replicate response into a Runpod response, field by field. -/
lemma runpodUpdate_replicateDump (outer : RunpodJobResponse) (inner : ReplicateJobResponse) :
    runpodUpdate outer (replicateDump inner) =
      { outer with
        id := inner.id, status := inner.status,
        progress := mergeOpt outer.progress inner.progress,
        error := mergeOpt outer.error inner.error,
        result := if inner.result.isNull then outer.result else inner.result,
        refresh_job_url := mergeOpt outer.refresh_job_url inner.refresh_job_url,
        cancel_job_url := mergeOpt outer.cancel_job_url inner.cancel_job_url } := by
  simp only [runpodUpdate, replicateDump, List.foldl,
    runpodSetAttr_id, runpodSetAttr_status, runpodSetAttr_progress,
    runpodSetAttr_error, runpodSetAttr_result, runpodSetAttr_refresh,
    runpodSetAttr_cancel, runpodSetAttr_created_at, runpodSetAttr_exec_started,
    runpodSetAttr_exec_finished, runpodSetAttr_metrics, runpodSetAttr_stream,
    runpodSetAttr_version, runpodSetAttr_data_removed, runpodSetAttr_logs,
    runpodSetAttr_exec_time_ms]

/-- C1: `format_request_params` is claimed to fail with `MissingParameter`
whenever a required parameter without default is absent, in particular on the
empty map `{}`.  The code's `if not data:` shortcut returns a fully formed
request for `{}` without ever running the required-parameter loop, so no
error is raised and the HTTP call would proceed; the check does fire for any
non-empty map missing the parameter. -/
theorem formatRequestParams_empty_map_bypasses_required_check :
    formatRequestParams none (some "http://svc") epImage [] =
      .ok { headers := [], url := some "http://svc/gen" } ∧
    formatRequestParams none (some "http://svc") epImage [("other", Json.str "v")] =
      .error (.valueError "Required parameter 'image' is missing") :=
  ⟨by with_unfolding_all rfl, by with_unfolding_all rfl⟩

/-- C2: `add_service` is claimed (by the spec and by its own docstring) to
fail on an id collision.  The code never checks: a second add of the same
definition succeeds and silently overwrites the stored entry, leaving the
registry unchanged; lookup by id after a single add does return the
definition. -/
theorem addService_duplicate_id_not_rejected :
    addService {} "f1" svc0 = .ok (smAfterAdd, svc0) ∧
    getService smAfterAdd "svc1" = .ok (some svc0) ∧
    addService smAfterAdd "f2" svc0 = .ok (smAfterAdd, svc0) :=
  ⟨by with_unfolding_all rfl, by with_unfolding_all rfl, by with_unfolding_all rfl⟩

/-- C6: updating `display_name` is claimed to update both the record and the
name index.  The `display_name` branch of `update_service` rewrites the
index (old normalized name removed, new one mapped) but performs no
`setattr`, so the stored record still carries the old display name. -/
theorem updateService_display_name_record_left_stale :
    updateServiceDisplayName smAfterAdd "svc1" "New Name" =
      .ok (smAfterUpdate, some svc0) ∧
    (alistLookup smAfterUpdate.services "svc1").map (fun s => s.display_name) =
      some (some "My Service") ∧
    alistLookup smAfterUpdate.service_names (normalizeNameForPy "New Name") =
      some "svc1" ∧
    alistLookup smAfterUpdate.service_names (normalizeNameForPy "My Service") =
      none :=
  ⟨by with_unfolding_all rfl, by with_unfolding_all rfl,
   by with_unfolding_all rfl, by with_unfolding_all rfl⟩

/-- C3 counterexample: after four consecutive transient poll errors the job
has *not* failed — `_poll_status` still signals `PollAgain` — contradicting
the claim that the fourth consecutive failure terminates the job. -/
theorem pollStatus_fourth_error_does_not_terminate :
    runPoll none (List.replicate 4 .transientError) = .stillPolling (some 4) ∧
    runPoll none (List.replicate 4 .transientError) ≠ .raised := by
  decide

/-- C3 amended: a transient poll error raises only once the stored
`number_of_polling_errors` counter exceeds 3; the counter starts absent
(read as 0) and is incremented on every error, and a successful non-terminal
poll leaves it untouched (no reset).  Hence the first four errors — whether
consecutive or not — are tolerated and the fifth raises, as the closed runs
show (including one with a successful poll interleaved). -/
theorem pollStatus_error_tolerance :
    (∀ td : Option Nat,
      pollStep td .transientError =
        (if td.getD 0 > 3 then .raised else .pollAgain (some (td.getD 0 + 1)))) ∧
    (∀ td : Option Nat, pollStep td (.statusIs .QUEUED) = .pollAgain td) ∧
    (∀ td : Option Nat, pollStep td (.statusIs .PROCESSING) = .pollAgain td) ∧
    runPoll none (List.replicate 4 .transientError) = .stillPolling (some 4) ∧
    runPoll none (List.replicate 5 .transientError) = .raised ∧
    runPoll none [.transientError, .transientError, .statusIs .PROCESSING,
      .transientError, .transientError, .transientError] = .raised :=
  ⟨fun _ => rfl, fun _ => rfl, fun _ => rfl, by decide, by decide, by decide⟩

/-- C4 counterexample: with an uploader configured and a 10 MB threshold, a
batch of exactly 10 MB is *uploaded*, not skipped — the skip comparison
`total_size < threshold` is false at equality, contradicting the claim that
a total exactly equal to the threshold skips upload. -/
theorem handleFileUpload_at_threshold_uploads :
    FileHandler.handleFileUpload fhThreshold10 batchAt10 = .ok .uploadedAsync ∧
    FileHandler.handleFileUpload fhThreshold10 batchAt10 ≠ .ok .attachedAsIs := by
  constructor
  · rfl
  · intro h
    have h' : UploadOutcome.uploadedAsync = UploadOutcome.attachedAsIs := by
      have h0 : FileHandler.handleFileUpload fhThreshold10 batchAt10 =
          .ok .uploadedAsync := rfl
      rw [h0] at h
      exact Except.ok.inj h
    exact absurd h' (by decide)

/-- C4 amended: in Decide-Upload, upload is skipped exactly when the uploader
is absent, or the threshold is unset (or `0.0`, which Python treats as
falsy), or the total size is *strictly less* than the threshold; a total
exactly equal to a non-zero threshold is handed to the uploader.  (Both
parts assume a non-empty batch within the hard size cap.) -/
theorem handleFileUpload_skip_characterization :
    (∀ (fh : FileHandler) (files : MediaBatch),
      files.names ≠ [] →
      (optRatTruthy fh.max_upload_file_size_mb = false ∨
        files.sizeMb ≤ fh.max_upload_file_size_mb.getD 0) →
      (FileHandler.handleFileUpload fh files = .ok .attachedAsIs ↔
        (fh.fast_cloud = none ∨ fh.upload_to_cloud_threshold_mb = none ∨
         fh.upload_to_cloud_threshold_mb = some 0 ∨
         files.sizeMb < fh.upload_to_cloud_threshold_mb.getD 0))) ∧
    (∀ (fh : FileHandler) (c : FastCloud) (t : Rat) (files : MediaBatch),
      files.names ≠ [] →
      fh.fast_cloud = some c → fh.upload_to_cloud_threshold_mb = some t →
      t ≠ 0 → files.sizeMb = t →
      (optRatTruthy fh.max_upload_file_size_mb = false ∨
        files.sizeMb ≤ fh.max_upload_file_size_mb.getD 0) →
      FileHandler.handleFileUpload fh files =
        .ok (if c.isUploadAPI then .uploadedAsync else .uploadedSync)) := by
  constructor
  · rintro ⟨fc, th, mx⟩ ⟨names, size⟩ hne hmax
    cases names with
    | nil => exact absurd rfl hne
    | cons a as =>
      have hmax' : (optRatTruthy mx && decide (size > mx.getD 0)) = false := by
        rcases hmax with h | h
        · simp only [h, Bool.false_and]
        · simp only [decide_eq_false (not_lt.mpr h), Bool.and_false]
      simp only [FileHandler.handleFileUpload, List.isEmpty_cons, hmax',
        Bool.false_eq_true, if_false]
      cases fc with
      | none => simp [Option.isNone]
      | some c =>
        cases th with
        | none => simp [optRatTruthy]
        | some t =>
          by_cases ht : t = 0
          · subst ht
            simp [optRatTruthy]
          · by_cases hlt : size < t
            · simp [optRatTruthy, ht, hlt]
            · cases hb : c.isUploadAPI <;>
                simp [optRatTruthy, ht, hlt, hb]
  · rintro ⟨fc, th, mx⟩ c t ⟨names, size⟩ hne hfc hth ht hsize hmax
    cases names with
    | nil => exact absurd rfl hne
    | cons a as =>
      cases hfc
      cases hth
      subst hsize
      have hmax' : (optRatTruthy mx && decide (size > mx.getD 0)) = false := by
        rcases hmax with h | h
        · simp only [h, Bool.false_and]
        · simp only [decide_eq_false (not_lt.mpr h), Bool.and_false]
      have h3 : ((some c : Option FastCloud).isNone || !optRatTruthy (some size) ||
          decide (size < size)) = false := by
        simp [optRatTruthy, ht, lt_irrefl]
      simp only [FileHandler.handleFileUpload, List.isEmpty_cons, hmax', h3,
        Bool.false_eq_true, if_false]
      cases hb : c.isUploadAPI <;> simp [hb, optRatTruthy, ht]

/-- C4 witness: a 9 MB batch below the 10 MB threshold is attached inline. -/
theorem handleFileUpload_skip_characterization_witness :
    FileHandler.handleFileUpload fhThreshold10 batchAt9 = .ok .attachedAsIs := by
  exact (handleFileUpload_skip_characterization.1 fhThreshold10 batchAt9
    (by decide) (Or.inl (by with_unfolding_all rfl))).mpr
    (Or.inr (Or.inr (Or.inr (by with_unfolding_all decide))))

/-- C5 counterexample: for a URL not ending in `openapi.json`, the loader is
claimed to try the direct URL first.  With an HTTP stack that answers *only*
the exact direct URL, the load nevertheless fails with spec-not-found: the
direct URL is never requested, only the four fallback paths are. -/
theorem loadFromUrl_direct_url_never_probed :
    demoFetch "http://host/spec" = .ok (Json.obj []) ∧
    loadFromUrl demoFetch "http://host/spec" =
      .error (.specNotFound "http://host/spec") := by
  exact ⟨by with_unfolding_all rfl, by with_unfolding_all rfl⟩

/-- C5 amended: for a URL not ending in `openapi.json`, `_load_from_url`
probes exactly the four fallback paths `{base}/openapi.json`,
`{base}/api/openapi.json`, `{base}/docs/openapi.json`,
`{base}/redoc/openapi.json` (where `base` is the URL with trailing slashes
stripped), in that order, stopping at the first success, and raises
spec-not-found when all four fail — regardless of what the direct URL would
have answered. -/
theorem loadFromUrl_fallback_probe_order :
    ∀ (fetch : String → FetchResult) (url : String) (j : Json),
      url.endsWith "openapi.json" = false →
      ∀ base, base = url.dropRightWhile (· == '/') →
      ((fetch (base ++ "/openapi.json") = .ok j →
          loadFromUrl fetch url = .ok j) ∧
       (fetch (base ++ "/openapi.json") = .httpErr →
        fetch (base ++ "/api/openapi.json") = .ok j →
          loadFromUrl fetch url = .ok j) ∧
       (fetch (base ++ "/openapi.json") = .httpErr →
        fetch (base ++ "/api/openapi.json") = .httpErr →
        fetch (base ++ "/docs/openapi.json") = .ok j →
          loadFromUrl fetch url = .ok j) ∧
       (fetch (base ++ "/openapi.json") = .httpErr →
        fetch (base ++ "/api/openapi.json") = .httpErr →
        fetch (base ++ "/docs/openapi.json") = .httpErr →
        fetch (base ++ "/redoc/openapi.json") = .ok j →
          loadFromUrl fetch url = .ok j) ∧
       (fetch (base ++ "/openapi.json") = .httpErr →
        fetch (base ++ "/api/openapi.json") = .httpErr →
        fetch (base ++ "/docs/openapi.json") = .httpErr →
        fetch (base ++ "/redoc/openapi.json") = .httpErr →
          loadFromUrl fetch url = .error (.specNotFound url))) := by
  intro fetch url j hend base hbase
  subst hbase
  refine ⟨fun h1 => ?_, fun h1 h2 => ?_, fun h1 h2 h3 => ?_,
          fun h1 h2 h3 h4 => ?_, fun h1 h2 h3 h4 => ?_⟩ <;>
    simp [loadFromUrl, fallbackPaths, tryFallbacks, hend, h1]
  all_goals simp [h2]
  all_goals simp [h3]
  all_goals simp [h4]

/-- C5 witness: all four fallbacks failing yields spec-not-found. -/
theorem loadFromUrl_fallback_probe_order_witness :
    loadFromUrl (fun _ => FetchResult.httpErr) "http://h" =
      .error (.specNotFound "http://h") := by
  exact (loadFromUrl_fallback_probe_order (fun _ => .httpErr) "http://h"
    Json.null (by with_unfolding_all rfl)
    ("http://h".dropRightWhile (· == '/')) rfl).2.2.2.2 rfl rfl rfl rfl

/-- C7: the task plan of `submit_job` always contains Preparing, Sending and
Processing; it contains the LoadFiles stage iff some endpoint parameter's
type set includes a media format (`file`/`image`/`video`/`audio`); the
Uploading stage iff the service's file handler exists and has an uploader
(`fast_cloud`) configured; and the Polling stage iff the service
specification is one of `fasttaskapi`, `socaity`, `runpod`, `replicate`. -/
theorem taskPlan_matches_reference_plan :
    ∀ (params : List EndpointParameter) (fh : Option FileHandler) (spec : String),
      "Preparing" ∈ taskPlan params fh spec ∧
      "Sending request" ∈ taskPlan params fh spec ∧
      "Processing result" ∈ taskPlan params fh spec ∧
      ("Load files" ∈ taskPlan params fh spec ↔
        ∃ p ∈ params, hasMediaType p.type = true) ∧
      ("Uploading files" ∈ taskPlan params fh spec ↔
        ∃ f c, fh = some f ∧ f.fast_cloud = some c) ∧
      ("Polling" ∈ taskPlan params fh spec ↔
        spec ∈ ["fasttaskapi", "socaity", "runpod", "replicate"]) := by
  intro params fh spec
  rcases fh with _ | f
  · by_cases hm : params.any (fun p => hasMediaType p.type) = true <;>
    by_cases hs : spec ∈ ["fasttaskapi", "socaity", "runpod", "replicate"] <;>
      simp [taskPlan, hm, hs, ← List.any_eq_true]
  · rcases hc : f.fast_cloud with _ | c <;>
    by_cases hm : params.any (fun p => hasMediaType p.type) = true <;>
    by_cases hs : spec ∈ ["fasttaskapi", "socaity", "runpod", "replicate"] <;>
      simp [taskPlan, hm, hs, hc, ← List.any_eq_true]



set_option maxRecDepth 100000 in
set_option maxHeartbeats 4000000 in
/-- C9 counterexample: the address parser is not idempotent on all accepted
inputs.  A Runpod URL carrying a route path parses to an address whose `url`
drops the path, so re-parsing that `url` loses `path`; a Replicate
`user/model` shorthand parses to a mangled `url` (missing separator after
`/v1`), and re-parsing that `url` mangles it further. -/
theorem createServiceAddress_not_idempotent :
    createServiceAddress (some "https://api.runpod.ai/v2/pod1/generate") none =
      .ok (some (.runpod "https://api.runpod.ai/v2/pod1" "pod1" "generate")) ∧
    createServiceAddress (some "https://api.runpod.ai/v2/pod1") none =
      .ok (some (.runpod "https://api.runpod.ai/v2/pod1" "pod1" "")) ∧
    (ServiceAddressT.runpod "https://api.runpod.ai/v2/pod1" "pod1" "generate" ≠
      ServiceAddressT.runpod "https://api.runpod.ai/v2/pod1" "pod1" "") ∧
    createServiceAddress (some "user/model") (some "replicate") =
      .ok (some (.replicate "https://api.replicate.com/v1user/model"
        (some "user/model") none)) ∧
    createServiceAddress (some "https://api.replicate.com/v1user/model")
        (some "replicate") =
      .ok (some (.replicate
        "https://api.replicate.com/v1https://api.replicate.com/v1user/model"
        (some "https://api.replicate.com/v1user/model") none)) := by
  refine ⟨by with_unfolding_all rfl, by with_unfolding_all rfl, by decide,
    by with_unfolding_all rfl, by with_unfolding_all rfl⟩

set_option maxRecDepth 100000 in
set_option maxHeartbeats 4000000 in
/-- C9 amended: `parse(parse(u).url) == parse(u)` does hold on the stable
accepted forms — Runpod pod ids, `pod_id/run`, and full Runpod URLs without
an extra route path; Replicate model URLs (with or without version);
Socaity URLs; generic URLs and bare hosts — while inputs carrying state the
`url` cannot reproduce (a Runpod route path; Replicate `user/model`,
bare-version and prediction-URL shorthands) are not idempotent. -/
theorem createServiceAddress_idempotent_on_stable_forms :
    idempotentAt "pod123" (some "runpod") ∧
    idempotentAt "pod123/run" (some "runpod") ∧
    idempotentAt "https://api.runpod.ai/v2/pod123" none ∧
    idempotentAt "https://api.runpod.ai/v2/pod123/run" none ∧
    idempotentAt "https://api.replicate.com/v1/models/user/model" none ∧
    idempotentAt "https://api.replicate.com/v1/models/user/model:v1" none ∧
    idempotentAt "https://api.socaity.ai" none ∧
    idempotentAt "api.socaity.ai/v1" none ∧
    idempotentAt "http://example.com/api" none ∧
    idempotentAt "localhost:8000" none := by
  refine ⟨⟨.runpod "https://api.runpod.ai/v2/pod123" "pod123" "", by with_unfolding_all rfl, by with_unfolding_all rfl⟩,
    ⟨.runpod "https://api.runpod.ai/v2/pod123" "pod123" "", by with_unfolding_all rfl, by with_unfolding_all rfl⟩,
    ⟨.runpod "https://api.runpod.ai/v2/pod123" "pod123" "", by with_unfolding_all rfl, by with_unfolding_all rfl⟩,
    ⟨.runpod "https://api.runpod.ai/v2/pod123" "pod123" "", by with_unfolding_all rfl, by with_unfolding_all rfl⟩,
    ⟨.replicate "https://api.replicate.com/v1/models/user/model/predictions"
      (some "user/model") none, by with_unfolding_all rfl, by with_unfolding_all rfl⟩,
    ⟨.replicate "https://api.replicate.com/v1/models/user/model:v1/predictions"
      (some "user/model") (some "v1"), by with_unfolding_all rfl, by with_unfolding_all rfl⟩,
    ⟨.socaity "https://api.socaity.ai", by with_unfolding_all rfl, by with_unfolding_all rfl⟩,
    ⟨.socaity "http://api.socaity.ai/v1", by with_unfolding_all rfl, by with_unfolding_all rfl⟩,
    ⟨.generic "http://example.com/api", by with_unfolding_all rfl, by with_unfolding_all rfl⟩,
    ⟨.generic "localhost:8000", by with_unfolding_all rfl, by with_unfolding_all rfl⟩⟩

/-- C8: a Runpod response whose `result` is a JSON-encoded string that a
strategy can parse (here the nested Socaity case) is recursively parsed and
merged over the outer response — and the merge (`BaseJobResponse.update`
with `exclude_unset` dumping) preserves an outer field exactly when the
inner response has no value (absent / `None`) for it, the inner value
winning otherwise.  The second part states this field law against an inner
response of any protocol. -/
theorem parseResponse_nested_runpod_merge :
    (∀ (k : Nat) (loads : String → Option Json) (media : Json → Json)
       (d : Json) (c : String) (pm : Bool) (outer : RunpodJobResponse)
       (inner : SocaityJobResponse) (s : String) (nd : Json),
      socaityCanParse d = false →
      runpodCanParse d = .ok true →
      runpodParse d = .ok outer →
      outer.result = Json.str s →
      loads s = some nd →
      socaityCanParse nd = true →
      socaityParse media true nd = .ok inner →
      parseResponse (k + 2) loads media (some ⟨"application/json", c, some d⟩) pm =
        .ok (.resp (.runpod (runpodUpdate outer (socaityDump inner))))) ∧
    (∀ (outer : RunpodJobResponse) (nr : JobResponseT),
      (runpodUpdate outer nr.dump).id = nr.idOf ∧
      (runpodUpdate outer nr.dump).status = nr.statusOf ∧
      (runpodUpdate outer nr.dump).progress = mergeOpt outer.progress nr.progressOf ∧
      (runpodUpdate outer nr.dump).error = mergeOpt outer.error nr.errorOf ∧
      (runpodUpdate outer nr.dump).result =
        (if nr.resultOf.isNull then outer.result else nr.resultOf) ∧
      (runpodUpdate outer nr.dump).refresh_job_url =
        mergeOpt outer.refresh_job_url nr.refreshOf ∧
      (runpodUpdate outer nr.dump).cancel_job_url =
        mergeOpt outer.cancel_job_url nr.cancelOf ∧
      (runpodUpdate outer nr.dump).service_specification =
        outer.service_specification ∧
      (runpodUpdate outer nr.dump).delayTime =
        mergeOpt outer.delayTime nr.delayTimeOf ∧
      (runpodUpdate outer nr.dump).executionTime =
        mergeOpt outer.executionTime nr.executionTimeOf ∧
      (runpodUpdate outer nr.dump).retries =
        mergeOpt outer.retries nr.retriesOf ∧
      (runpodUpdate outer nr.dump).workerId =
        mergeOpt outer.workerId nr.workerIdOf) := by
  constructor
  · intro k loads media d c pm outer inner s nd h1 h2 h3 h4 h5 h6 h7
    have hct : pyIn "application/json" "application/json" = true := rfl
    simp only [parseResponse, hct, Bool.not_true, Bool.false_eq_true, if_false]
    simp only [parseJsonData, h1, Bool.false_eq_true, if_false, h2, h3, h4,
      h5, anyCanParse, h6, if_true, h7, JobResponseT.dump]
  · intro outer nr
    cases nr with
    | socaity r =>
      rw [show JobResponseT.dump (.socaity r) = socaityDump r from rfl,
        runpodUpdate_socaityDump]
      refine ⟨rfl, rfl, rfl, rfl, rfl, rfl, rfl, rfl, ?_, ?_, ?_, ?_⟩ <;> rfl
    | runpod r =>
      rw [show JobResponseT.dump (.runpod r) = runpodDump r from rfl,
        runpodUpdate_runpodDump]
      exact ⟨rfl, rfl, rfl, rfl, rfl, rfl, rfl, rfl, rfl, rfl, rfl, rfl⟩
    | replicate r =>
      rw [show JobResponseT.dump (.replicate r) = replicateDump r from rfl,
        runpodUpdate_replicateDump]
      exact ⟨rfl, rfl, rfl, rfl, rfl, rfl, rfl, rfl, rfl, rfl, rfl, rfl⟩

set_option maxRecDepth 100000 in
set_option maxHeartbeats 4000000 in
/-- C8 witness: the spec's Runpod-with-nested-Socaity scenario, end to end. -/
theorem parseResponse_nested_runpod_merge_witness :
    parseResponse 5 loads0 id (some ⟨"application/json", "", some outerData0⟩) true =
      .ok (.resp (.runpod (runpodUpdate outerResp0 (socaityDump innerResp0)))) := by
  exact parseResponse_nested_runpod_merge.1 3 loads0 id outerData0 "" true
    outerResp0 innerResp0 "NESTED" innerData0
    (by with_unfolding_all rfl) (by with_unfolding_all rfl)
    (by with_unfolding_all rfl) (by with_unfolding_all rfl)
    (by with_unfolding_all rfl) (by with_unfolding_all rfl)
    (by with_unfolding_all rfl)

set_option maxRecDepth 100000 in
set_option maxHeartbeats 4000000 in
/-- C10 counterexample: `parse_response` is not total.  On a response whose
JSON body is an array, the first two strategies decline (their
`isinstance(data, dict)` guards), and `ReplicateResponseParser.can_parse`
calls `data.get("urls", {})` on the list, raising `AttributeError` out of
`parse_response`. -/
theorem parseResponse_raises_on_array_body :
    parseResponse 5 loads0 id
      (some ⟨"application/json", "[1]", some (Json.arr [Json.num 1])⟩) true =
      .error .attributeError := by
  with_unfolding_all rfl

/-- C10 amended: `parse_response` behaves as claimed on every case except
non-dict JSON bodies: a missing response yields `None`; a non-JSON
content type or an undecodable body yields the raw bytes; a JSON object
matched by no strategy yields the raw decoded map; but a JSON *array* body
reaches the Replicate strategy's unguarded `data.get` and raises
`AttributeError`, so totality fails there. -/
theorem parseResponse_case_behaviour :
    (∀ (fuel : Nat) (loads : String → Option Json) (media : Json → Json) (pm : Bool),
      parseResponse fuel loads media none pm = .ok .nothing) ∧
    (∀ (fuel : Nat) (loads : String → Option Json) (media : Json → Json)
       (r : HttpResponse) (pm : Bool),
      pyIn "application/json" r.contentType = false →
      parseResponse fuel loads media (some r) pm = .ok (.bytes r.content)) ∧
    (∀ (fuel : Nat) (loads : String → Option Json) (media : Json → Json)
       (r : HttpResponse) (pm : Bool),
      pyIn "application/json" r.contentType = true →
      r.json = none →
      parseResponse fuel loads media (some r) pm = .ok (.bytes r.content)) ∧
    (∀ (fuel : Nat) (loads : String → Option Json) (media : Json → Json)
       (r : HttpResponse) (d : Json) (pm : Bool),
      pyIn "application/json" r.contentType = true →
      r.json = some d →
      socaityCanParse d = false →
      runpodCanParse d = .ok false →
      replicateCanParse d = .ok false →
      parseResponse (fuel + 1) loads media (some r) pm = .ok (.raw d)) ∧
    (∀ (fuel : Nat) (loads : String → Option Json) (media : Json → Json)
       (r : HttpResponse) (xs : List Json) (pm : Bool),
      pyIn "application/json" r.contentType = true →
      r.json = some (.arr xs) →
      parseResponse (fuel + 1) loads media (some r) pm =
        .error .attributeError) := by
  refine ⟨fun fuel loads media pm => rfl, ?_, ?_, ?_, ?_⟩
  · intro fuel loads media r pm hct
    simp only [parseResponse, hct, Bool.not_false, if_true]
  · intro fuel loads media r pm hct hjson
    simp only [parseResponse, hct, Bool.not_true, Bool.false_eq_true, if_false, hjson]
  · intro fuel loads media r d pm hct hjson h1 h2 h3
    simp only [parseResponse, hct, Bool.not_true, Bool.false_eq_true, if_false,
      hjson, parseJsonData, h1, if_false, h2, h3]
  · intro fuel loads media r xs pm hct hjson
    simp only [parseResponse, hct, Bool.not_true, Bool.false_eq_true, if_false,
      hjson, parseJsonData]
    rfl

/-- C10 witness: a JSON object matched by no strategy comes back as the raw
decoded map. -/
theorem parseResponse_case_behaviour_witness :
    parseResponse 1 loads0 id
      (some ⟨"application/json", "", some (Json.obj [("a", Json.num 1)])⟩) true =
      .ok (.raw (Json.obj [("a", Json.num 1)])) := by
  exact parseResponse_case_behaviour.2.2.2.1 0 loads0 id
    ⟨"application/json", "", some (Json.obj [("a", Json.num 1)])⟩
    (Json.obj [("a", Json.num 1)]) true
    (by with_unfolding_all rfl) rfl
    (by with_unfolding_all rfl) (by with_unfolding_all rfl)
    (by with_unfolding_all rfl)
